import Mathlib

/-!
Verification of the DRM display backend (`src/patches/drm_display.cpp`,
`src/patches/drm_display.hpp`) and the zero-copy GPU display path
(`src/patches/interface.cpp`) of the nextui-gopher64-pak repository.

The development shallowly embeds:
* the CPU pixel-conversion pipeline of `drm_display_present` (scalar,
  NEON x2/x4 and generic nearest-neighbor paths) as pure functions on
  byte memories (`Nat → Nat`, values are bytes),
* the presentation state machine (`drm_display_present`,
  `drm_display_init`, `drm_display_cleanup`) as explicit state-passing
  functions over a `DrmDisplay` record, with kernel-call outcomes
  supplied by an environment record and the kernel calls performed
  recorded as an event trace,
* the zero-copy initialization and per-frame dispatch of
  `init_gpu_display` / `render_frame` in `interface.cpp`.

Machine integers are modelled as `Nat`; the one place where 32-bit
overflow is observable in the verified properties (the stride check
`stride < width * 4` on `uint32_t`) carries an explicit `% 2^32`.
-/

/-! ### Byte-level pixel primitives

The source frame is RGBA8888: byte `k` of source pixel `x` in row `sy`
lives at offset `sy * stride + 4 * x + k` (k = 0 → R, 1 → G, 2 → B,
3 → A).  A `uint8_t` read reduces the memory value mod 256. -/

/-- Modelled uint8 read of channel `k` of source pixel `(sy, x)`:
`src_row[src_x * 4 + k]` in the C code. -/
def srcB (rgba : Nat → Nat) (stride sy x k : Nat) : Nat :=
  rgba (sy * stride + 4 * x + k) % 256

/-- Little-endian byte image of the XRGB8888 store
`dst = (r << 16) | (g << 8) | b` performed by every path of the blit:
bytes `[B, G, R, 0]`, with the pad byte forced to zero. -/
def srcPixBytes (rgba : Nat → Nat) (stride sy x : Nat) : List Nat :=
  [srcB rgba stride sy x 2, srcB rgba stride sy x 1, srcB rgba stride sy x 0, 0]

/-! ### Scalar horizontal expansion (`drm_display.cpp:606-615`)

For each source pixel the scalar path stores `scale_x` copies of the
converted `uint32_t`. -/

/-- Scalar expansion of source row `sy` by horizontal factor `scaleX`
(bytes of the `expanded_row` array). -/
def expandRowScalar (rgba : Nat → Nat) (stride sy width scaleX : Nat) : List Nat :=
  (List.range width).flatMap
    (fun sx => (List.replicate scaleX (srcPixBytes rgba stride sy sx)).flatten)

/-! ### NEON intrinsics (`drm_display.cpp:490-603`)

8-lane byte vectors are modelled as `Fin 8 → Nat`. -/

/-- Deinterleaving load `vld4_u8`: channel `k` of the eight pixels
starting at source pixel `base` of row `sy`. -/
def vld4 (rgba : Nat → Nat) (stride sy base k : Nat) : Fin 8 → Nat :=
  fun i => srcB rgba stride sy (base + i.val) k

/-- Low half of `vzip_u8 a b`: `[a0, b0, a1, b1, a2, b2, a3, b3]`. -/
def vzipLo (a b : Fin 8 → Nat) : Fin 8 → Nat :=
  fun i => if i.val % 2 = 0 then a ⟨i.val / 2, by have := i.isLt; omega⟩
           else b ⟨i.val / 2, by have := i.isLt; omega⟩

/-- High half of `vzip_u8 a b`: `[a4, b4, a5, b5, a6, b6, a7, b7]`. -/
def vzipHi (a b : Fin 8 → Nat) : Fin 8 → Nat :=
  fun i => if i.val % 2 = 0 then a ⟨4 + i.val / 2, by have := i.isLt; omega⟩
           else b ⟨4 + i.val / 2, by have := i.isLt; omega⟩

/-- Interleaving store `vst4_u8`: 32 bytes
`v0 0, v1 0, v2 0, v3 0, v0 1, ...`. -/
def vst4 (v0 v1 v2 v3 : Fin 8 → Nat) : List Nat :=
  (List.ofFn (fun i : Fin 8 => [v0 i, v1 i, v2 i, v3 i])).flatten

/-- One iteration of the NEON x2 loop (`drm_display.cpp:497-539`):
8 RGBA source pixels starting at `base` become 16 XRGB pixels
(64 output bytes), each source pixel duplicated twice. -/
def neonBlock2 (rgba : Nat → Nat) (stride sy base : Nat) : List Nat :=
  let r := vld4 rgba stride sy base 0
  let g := vld4 rgba stride sy base 1
  let b := vld4 rgba stride sy base 2
  let zero : Fin 8 → Nat := fun _ => 0
  vst4 (vzipLo b b) (vzipLo g g) (vzipLo r r) (vzipLo zero zero)
  ++ vst4 (vzipHi b b) (vzipHi g g) (vzipHi r r) (vzipHi zero zero)

/-- One iteration of the NEON x4 loop (`drm_display.cpp:549-596`):
8 RGBA source pixels starting at `base` become 32 XRGB pixels
(128 output bytes), each source pixel duplicated four times, via two
rounds of `vzip_u8`. -/
def neonBlock4 (rgba : Nat → Nat) (stride sy base : Nat) : List Nat :=
  let r := vld4 rgba stride sy base 0
  let g := vld4 rgba stride sy base 1
  let b := vld4 rgba stride sy base 2
  let zero : Fin 8 → Nat := fun _ => 0
  let b2lo := vzipLo b b
  let b2hi := vzipHi b b
  let g2lo := vzipLo g g
  let g2hi := vzipHi g g
  let r2lo := vzipLo r r
  let r2hi := vzipHi r r
  let z2lo := vzipLo zero zero
  let z2hi := vzipHi zero zero
  vst4 (vzipLo b2lo b2lo) (vzipLo g2lo g2lo) (vzipLo r2lo r2lo) (vzipLo z2lo z2lo)
  ++ vst4 (vzipHi b2lo b2lo) (vzipHi g2lo g2lo) (vzipHi r2lo r2lo) (vzipHi z2lo z2lo)
  ++ vst4 (vzipLo b2hi b2hi) (vzipLo g2hi g2hi) (vzipLo r2hi r2hi) (vzipLo z2hi z2hi)
  ++ vst4 (vzipHi b2hi b2hi) (vzipHi g2hi g2hi) (vzipHi r2hi r2hi) (vzipHi z2hi z2hi)

/-- NEON x2 row expansion: whole 8-pixel blocks up to
`neon_width = width & ~7 = 8 * (width / 8)`, then the scalar tail
(`drm_display.cpp:540-547`) which stores each remaining pixel twice. -/
def expandRowNeon2 (rgba : Nat → Nat) (stride sy width : Nat) : List Nat :=
  (List.range (width / 8)).flatMap (fun blk => neonBlock2 rgba stride sy (8 * blk))
  ++ (List.range (width % 8)).flatMap
      (fun t => srcPixBytes rgba stride sy (8 * (width / 8) + t)
                ++ srcPixBytes rgba stride sy (8 * (width / 8) + t))

/-- NEON x4 row expansion: whole 8-pixel blocks, then the scalar tail
(`drm_display.cpp:597-602`) storing each remaining pixel four times. -/
def expandRowNeon4 (rgba : Nat → Nat) (stride sy width : Nat) : List Nat :=
  (List.range (width / 8)).flatMap (fun blk => neonBlock4 rgba stride sy (8 * blk))
  ++ (List.range (width % 8)).flatMap
      (fun t => (List.replicate 4 (srcPixBytes rgba stride sy (8 * (width / 8) + t))).flatten)

/-- Row-expansion dispatch of the aarch64 build
(`drm_display.cpp:491,549,604-615`): NEON for scale 2 and 4, scalar
replication otherwise. -/
def expandRow (rgba : Nat → Nat) (stride sy width scaleX : Nat) : List Nat :=
  if scaleX = 2 then expandRowNeon2 rgba stride sy width
  else if scaleX = 4 then expandRowNeon4 rgba stride sy width
  else expandRowScalar rgba stride sy width scaleX

/-! ### Full-frame paths -/

/-- Fast integer-upscale path (`drm_display.cpp:485-623`): for each
source row, the expanded row is written (`memcpy`) to `scaleY`
consecutive destination rows starting at `src_y * scale_y`. -/
def fastRows (rgba : Nat → Nat) (stride width height scaleX scaleY : Nat) :
    List (List Nat) :=
  (List.range height).flatMap
    (fun sy => List.replicate scaleY (expandRow rgba stride sy width scaleX))

/-- One destination row of the generic nearest-neighbor path
(`drm_display.cpp:646-661`): `src_y = (y * height) / buf.height`,
`src_x = (x * width) / buf.width`. -/
def genericRow (rgba : Nat → Nat) (stride width height bufW bufH y : Nat) : List Nat :=
  (List.range bufW).flatMap
    (fun x => srcPixBytes rgba stride ((y * height) / bufH) ((x * width) / bufW))

/-- Generic nearest-neighbor path, all destination rows. -/
def genericRows (rgba : Nat → Nat) (stride width height bufW bufH : Nat) :
    List (List Nat) :=
  (List.range bufH).map (genericRow rgba stride width height bufW bufH)

/-- Blit dispatch of `drm_display_present` (`drm_display.cpp:459-661`):
the fast path requires `width, height > 0`, both destination dimensions
integer multiples of the source dimensions and both scale factors in
`1..4`; all other ratios take the generic nearest-neighbor loop.  Rows
are the bytes written to each destination scanline (`buf.width * 4`
bytes; stride padding is never written). -/
def blitRows (rgba : Nat → Nat) (stride width height bufW bufH : Nat) :
    List (List Nat) :=
  if 0 < width ∧ 0 < height ∧ bufW % width = 0 ∧ bufH % height = 0 then
    if 0 < bufW / width ∧ 0 < bufH / height ∧ bufW / width ≤ 4 ∧ bufH / height ≤ 4 then
      fastRows rgba stride width height (bufW / width) (bufH / height)
    else
      genericRows rgba stride width height bufW bufH
  else
    genericRows rgba stride width height bufW bufH

/-- Byte `k` of destination row `y`. -/
def dstByte (rows : List (List Nat)) (y k : Nat) : Nat :=
  (rows.getD y []).getD k 0

/-! ### List indexing lemmas -/

theorem length_flatMap_uniform {α : Type} (g : Nat → List α) (s : Nat)
    (hlen : ∀ i, (g i).length = s) :
    ∀ (l : List Nat), (l.flatMap g).length = l.length * s := by
  intro l
  induction l with
  | nil => simp
  | cons a t ih =>
    simp only [List.flatMap_cons, List.length_append, ih, List.length_cons, hlen]
    ring

/-- Chunked indexing: element `y` of a flatMap of uniform-length chunks
over `List.range n` is element `y % s` of chunk `y / s`. -/
theorem getD_flatMap_range {α : Type} (g : Nat → List α) (s : Nat) (hs : 0 < s)
    (hlen : ∀ i, (g i).length = s) (d : α) :
    ∀ (n y : Nat), y < n * s →
      ((List.range n).flatMap g).getD y d = (g (y / s)).getD (y % s) d := by
  intro n
  induction n with
  | zero => intro y hy; omega
  | succ m ih =>
    intro y hy
    have hms : (m + 1) * s = m * s + s := by ring
    rw [List.range_succ, List.flatMap_append]
    have hlenpre : ((List.range m).flatMap g).length = m * s := by
      rw [length_flatMap_uniform g s hlen, List.length_range]
    by_cases hcase : y < m * s
    · rw [List.getD_append _ _ _ _ (by rw [hlenpre]; exact hcase)]
      exact ih y hcase
    · push_neg at hcase
      rw [List.getD_append_right _ _ _ _ (by rw [hlenpre]; exact hcase)]
      rw [hlenpre]
      simp only [List.flatMap_cons, List.flatMap_nil, List.append_nil]
      have h2 : y - m * s < s := by omega
      have h1 : y = s * m + (y - m * s) := by
        have : s * m = m * s := by ring
        omega
      have hdiv : y / s = m := by
        conv_lhs => rw [h1]
        rw [Nat.mul_add_div hs, Nat.div_eq_of_lt h2]
        omega
      have hmod : y % s = y - m * s := by
        conv_lhs => rw [h1]
        rw [Nat.mul_add_mod]
        exact Nat.mod_eq_of_lt h2
      rw [hdiv, hmod]

theorem getD_map_range {α : Type} (f : Nat → α) (d : α) (n y : Nat) (hy : y < n) :
    ((List.range n).map f).getD y d = f y := by
  rw [List.getD_eq_getElem?_getD, List.getElem?_map]
  simp [List.getElem?_range hy]

theorem replicate_flatten_eq {α : Type} (s : Nat) (l : List α) :
    (List.replicate s l).flatten = (List.range s).flatMap (fun _ => l) := by
  induction s with
  | zero => simp
  | succ m ih =>
    rw [List.range_succ_eq_map, List.flatMap_cons, List.flatMap_map]
    simp only [List.replicate_succ, List.flatten_cons, ih]

/-- Splitting a flatMap over `List.range (8 * q + r)` into whole
8-blocks plus a tail. -/
theorem flatMap_range_split {α : Type} (f : Nat → List α) (q r : Nat) :
    (List.range (8 * q + r)).flatMap f
      = (List.range q).flatMap (fun b => (List.range 8).flatMap (fun i => f (8 * b + i)))
        ++ (List.range r).flatMap (fun t => f (8 * q + t)) := by
  rw [List.range_add, List.flatMap_append, List.flatMap_map]
  congr 1
  induction q with
  | zero => simp
  | succ m ih =>
    have h8 : 8 * (m + 1) = 8 * m + 8 := by ring
    rw [h8, List.range_add, List.flatMap_append, List.flatMap_map, ih]
    conv_rhs => rw [List.range_succ]
    rw [List.flatMap_append]
    simp

/-! ### NEON x2 / x4 paths agree with the scalar reference -/

/-- One NEON x2 block equals each of the 8 source pixels converted and
stored twice. -/
theorem neonBlock2_eq (rgba : Nat → Nat) (stride sy base : Nat) :
    neonBlock2 rgba stride sy base
      = (List.range 8).flatMap
          (fun k => srcPixBytes rgba stride sy (base + k)
                    ++ srcPixBytes rgba stride sy (base + k)) := by
  simp [neonBlock2, vst4, vzipLo, vzipHi, vld4, srcPixBytes, List.ofFn_succ,
        List.range_succ]

/-- One NEON x4 block equals each of the 8 source pixels converted and
stored four times. -/
theorem neonBlock4_eq (rgba : Nat → Nat) (stride sy base : Nat) :
    neonBlock4 rgba stride sy base
      = (List.range 8).flatMap
          (fun k => (List.replicate 4 (srcPixBytes rgba stride sy (base + k))).flatten) := by
  simp [neonBlock4, vst4, vzipLo, vzipHi, vld4, srcPixBytes, List.ofFn_succ,
        List.range_succ, List.replicate]

/-- The NEON x2 row expansion (with its scalar tail) produces exactly
the scalar x2 expansion. -/
theorem expandRowNeon2_eq_scalar (rgba : Nat → Nat) (stride sy width : Nat) :
    expandRowNeon2 rgba stride sy width = expandRowScalar rgba stride sy width 2 := by
  have hw : width = 8 * (width / 8) + width % 8 := by omega
  rw [expandRowNeon2, expandRowScalar]
  conv_rhs => rw [hw]
  rw [flatMap_range_split]
  simp [neonBlock2_eq, List.replicate]

/-- The NEON x4 row expansion (with its scalar tail) produces exactly
the scalar x4 expansion. -/
theorem expandRowNeon4_eq_scalar (rgba : Nat → Nat) (stride sy width : Nat) :
    expandRowNeon4 rgba stride sy width = expandRowScalar rgba stride sy width 4 := by
  have hw : width = 8 * (width / 8) + width % 8 := by omega
  rw [expandRowNeon4, expandRowScalar]
  conv_rhs => rw [hw]
  rw [flatMap_range_split]
  simp [neonBlock4_eq, List.replicate]

/-- The dispatched row expansion always agrees with the scalar
reference implementation. -/
theorem expandRow_eq_scalar (rgba : Nat → Nat) (stride sy width scaleX : Nat) :
    expandRow rgba stride sy width scaleX = expandRowScalar rgba stride sy width scaleX := by
  unfold expandRow
  by_cases h2 : scaleX = 2
  · subst h2; simp [expandRowNeon2_eq_scalar]
  · by_cases h4 : scaleX = 4
    · subst h4; simp [expandRowNeon4_eq_scalar, h2]
    · simp [h2, h4]

/-! ### Pixel extraction lemmas -/

theorem length_replicate_flatten {α : Type} (s : Nat) (l : List α) :
    (List.replicate s l).flatten.length = s * l.length := by
  rw [replicate_flatten_eq,
      length_flatMap_uniform (fun _ => l) l.length (fun _ => rfl), List.length_range]

/-- Pixel `p`, byte `k` of the scalar expansion is byte `k` of the
converted source pixel `p / scaleX`. -/
theorem expandRowScalar_pix (rgba : Nat → Nat) (stride sy width s p k : Nat)
    (hp : p < width * s) (hk : k < 4) :
    (expandRowScalar rgba stride sy width s).getD (4 * p + k) 0
      = (srcPixBytes rgba stride sy (p / s)).getD k 0 := by
  have hs : 0 < s := by
    rcases Nat.eq_zero_or_pos s with h | h
    · subst h; simp at hp
    · exact h
  have hmod : p % s < s := Nat.mod_lt p hs
  have hrr : 4 * (p % s) + k < 4 * s := by omega
  have hp2 : p = s * (p / s) + p % s := (Nat.div_add_mod p s).symm
  have hsplit : 4 * p + k = 4 * s * (p / s) + (4 * (p % s) + k) := by
    conv_lhs => rw [hp2]
    ring
  have hbound : 4 * p + k < width * (4 * s) := by
    have h4 : width * (4 * s) = 4 * (width * s) := by ring
    rw [h4]
    have := hp
    generalize width * s = A at this ⊢
    omega
  rw [expandRowScalar,
      getD_flatMap_range _ (4 * s) (by omega)
        (fun i => by rw [length_replicate_flatten]; simp [srcPixBytes]; ring)
        0 width (4 * p + k) hbound]
  have hq : (4 * p + k) / (4 * s) = p / s := by
    rw [hsplit, Nat.mul_add_div (by omega), Nat.div_eq_of_lt hrr]
    omega
  have hr : (4 * p + k) % (4 * s) = 4 * (p % s) + k := by
    rw [hsplit, Nat.mul_add_mod, Nat.mod_eq_of_lt hrr]
  rw [hq, hr, replicate_flatten_eq,
      getD_flatMap_range (fun _ => srcPixBytes rgba stride sy (p / s)) 4 (by omega)
        (fun i => by simp [srcPixBytes]) 0 s (4 * (p % s) + k) (by omega)]
  rw [Nat.mul_add_mod, Nat.mod_eq_of_lt hk]

/-- Destination row `y` of the fast path is the expanded source row
`y / scaleY`. -/
theorem fastRows_getD (rgba : Nat → Nat) (stride width height scaleX scaleY y : Nat)
    (hsy : 0 < scaleY) (hy : y < height * scaleY) :
    (fastRows rgba stride width height scaleX scaleY).getD y []
      = expandRow rgba stride (y / scaleY) width scaleX := by
  rw [fastRows,
      getD_flatMap_range _ scaleY hsy (fun i => by simp) [] height y hy]
  rw [List.getD_eq_getElem?_getD, List.getElem?_replicate]
  simp [Nat.mod_lt y hsy]

theorem genericRows_getD (rgba : Nat → Nat) (stride width height bufW bufH y : Nat)
    (hy : y < bufH) :
    (genericRows rgba stride width height bufW bufH).getD y []
      = genericRow rgba stride width height bufW bufH y :=
  getD_map_range _ _ _ _ hy

/-- Pixel `x`, byte `k` of a generic-path destination row. -/
theorem genericRow_pix (rgba : Nat → Nat) (stride width height bufW bufH y x k : Nat)
    (hx : x < bufW) (hk : k < 4) :
    (genericRow rgba stride width height bufW bufH y).getD (4 * x + k) 0
      = (srcPixBytes rgba stride ((y * height) / bufH) ((x * width) / bufW)).getD k 0 := by
  have hbound : 4 * x + k < bufW * 4 := by omega
  rw [genericRow,
      getD_flatMap_range _ 4 (by omega) (fun i => by simp [srcPixBytes]) 0 bufW
        (4 * x + k) hbound]
  have hq : (4 * x + k) / 4 = x := by omega
  have hr : (4 * x + k) % 4 = k := by omega
  rw [hq, hr]

/-! ### Presentation state machine (`drm_display.hpp`, `drm_display.cpp`)

The mutable `DrmDisplay` struct becomes an explicit state record.
Kernel-call outcomes (buffer creation, `drmModeSetCrtc`,
`drmModePageFlip`, `drmModeDirtyFB`) are supplied by an environment
record; the kernel calls a `present` performs are recorded as an event
trace in program order.  Pixel contents are not part of the state: the
pure frame written into the back buffer is `blitRows` above, and the
write itself appears as the `writeFrame` event. -/

/-- Outcome of one `drmModePageFlip` call: success, failure with
`errno == EBUSY`, or failure with any other errno. -/
inductive FlipRes
  | ok
  | busy
  | err
deriving DecidableEq

/-- Kernel-call outcomes for a single `drm_display_present` call.
`createOk` covers `create_dumb_buffer` (dumb-buffer ioctl, framebuffer
registration and mmap together); `flip1`/`flip2` are the outcomes of
the first and the retried `drmModePageFlip`. -/
structure Env where
  createOk : Bool
  dirtyfbOk : Bool
  setCrtcOk : Bool
  flip1 : FlipRes
  flip2 : FlipRes
deriving DecidableEq

/-- Environment-variable values read by `init_debug_flags`. -/
structure DebugEnv where
  testPattern : Bool
  forceMsync : Bool
  disablePlane : Bool
  useOverlay : Bool
  noVblankSync : Bool
deriving DecidableEq

/-- Kernel calls and buffer operations performed by a `present` call,
in program order. -/
inductive Ev
  | destroyBuf (i : Nat)
  | allocBuf (i w h : Nat)
  | writeFrame
  | msync
  | dirtyProbe
  | dirtyCall
  | setCrtc
  | pageFlip
  | vblankWait
deriving DecidableEq

/-- The `DrmDisplay` struct of `drm_display.hpp:15-64` (buffer pixel
contents and the saved `drmModeModeInfo` are not modelled; buffer
identity is tracked through the event trace). -/
structure DrmState where
  fd : Int
  connectorId : Nat
  crtcId : Nat
  planeId : Nat
  displayWidth : Nat
  displayHeight : Nat
  currentBuffer : Nat
  frameCount : Nat
  srcWidth : Nat
  srcHeight : Nat
  buffersReady : Bool
  modeSet : Bool
  dirtyfbChecked : Bool
  dirtyfbSupported : Bool
  debugFlagsInitialized : Bool
  debugTestPattern : Bool
  debugForceMsync : Bool
  debugDisablePlane : Bool
  debugUseOverlay : Bool
  debugNoVblankSync : Bool
  setcrtcErrorLogged : Bool
  planeIsOverlay : Bool
  vblankErrorLogged : Bool
  fastUpscaleLogged : Bool
deriving DecidableEq

/-- The `init_debug_flags` helper (`drm_display.cpp:176-199`): reads
the five environment switches once and latches them. -/
def initDebugFlags (denv : DebugEnv) (st : DrmState) : DrmState :=
  if st.debugFlagsInitialized then st
  else
    { st with
      debugTestPattern := denv.testPattern
      debugForceMsync := denv.forceMsync
      debugDisablePlane := denv.disablePlane
      debugUseOverlay := denv.useOverlay
      debugNoVblankSync := denv.noVblankSync
      debugFlagsInitialized := true }

/-- Dirty-framebuffer stage of `present` (`drm_display.cpp:678-698`):
probe `drmModeDirtyFB` once, then use it only when supported. -/
def dirtyStage (env : Env) (st : DrmState) : DrmState × List Ev :=
  if !st.dirtyfbChecked then
    ({ st with dirtyfbChecked := true, dirtyfbSupported := env.dirtyfbOk }, [Ev.dirtyProbe])
  else if st.dirtyfbSupported then (st, [Ev.dirtyCall])
  else (st, [])

/-- Submission stage of `present` (`drm_display.cpp:700-739`): full
`SetCrtc` before any buffer has been scanned out, `PageFlip` afterwards
with a single vblank-paced retry on `EBUSY`; on success the front/back
index is swapped and the frame counter incremented. -/
def flipStage (env : Env) (st : DrmState) : Bool × DrmState × List Ev :=
  if !st.modeSet then
    if env.setCrtcOk then
      (true, { st with
                modeSet := true
                currentBuffer := st.currentBuffer ^^^ 1
                frameCount := st.frameCount + 1 }, [Ev.setCrtc])
    else (false, st, [Ev.setCrtc])
  else
    match env.flip1 with
    | FlipRes.ok =>
      (true, { st with
                currentBuffer := st.currentBuffer ^^^ 1
                frameCount := st.frameCount + 1 }, [Ev.pageFlip])
    | FlipRes.err =>
      (false, { st with setcrtcErrorLogged := true }, [Ev.pageFlip])
    | FlipRes.busy =>
      -- wait_vblank (drm_display.cpp:201-215) then exactly one retry
      let evV := if st.debugNoVblankSync then [Ev.pageFlip]
        else [Ev.pageFlip, Ev.vblankWait]
      match env.flip2 with
      | FlipRes.ok =>
        (true, { st with
                  currentBuffer := st.currentBuffer ^^^ 1
                  frameCount := st.frameCount + 1 }, evV ++ [Ev.pageFlip])
      | _ =>
        (false, { st with setcrtcErrorLogged := true }, evV ++ [Ev.pageFlip])

/-- The `drm_display_present` state machine (`drm_display.cpp:385-740`),
without the pixel writes (see `blitRows`).  Returns the C function
result, the updated state, and the kernel-call trace. -/
def presentStep (denv : DebugEnv) (env : Env) (st0 : DrmState) (w h stride : Nat) :
    Bool × DrmState × List Ev :=
  let st := initDebugFlags denv st0
  -- stride < min_stride with uint32 arithmetic (drm_display.cpp:389-395)
  if stride % 2 ^ 32 < (4 * w) % 2 ^ 32 then (false, st, [])
  else
    -- resize check and reallocation at display resolution (drm_display.cpp:397-428)
    let realloc := !st.buffersReady || st.srcWidth != w || st.srcHeight != h
    let stA := if realloc then { st with srcWidth := w, srcHeight := h } else st
    let evA : List Ev := if realloc then [Ev.destroyBuf 0, Ev.destroyBuf 1] else []
    if realloc && !env.createOk then (false, stA, evA)
    else
      let stB := if realloc then { stA with buffersReady := true, currentBuffer := 0 } else stA
      let evB := evA ++ (if realloc then
          [Ev.allocBuf 0 st.displayWidth st.displayHeight,
           Ev.allocBuf 1 st.displayWidth st.displayHeight] else [])
      -- test pattern or blit write (drm_display.cpp:432-662), optional
      -- msync (drm_display.cpp:664-676), then dirtyfb and submission
      let evM : List Ev := if stB.debugForceMsync then [Ev.msync] else []
      let d := dirtyStage env stB
      let f := flipStage env d.1
      (f.1, f.2.1, evB ++ [Ev.writeFrame] ++ evM ++ d.2 ++ f.2.2)

/-- The `drm_display_cleanup` function (`drm_display.cpp:742-757`):
destroys the three buffers, drops mastership, closes the fd, and
resets exactly `buffers_ready` and `mode_set`. -/
def cleanupStep (st : DrmState) : DrmState :=
  { st with fd := -1, buffersReady := false, modeSet := false }

/-- Discovery results and kernel-call outcomes for one
`drm_display_init` call.  The connector/CRTC/plane enumeration loops
are abstracted into the values the environment reports
(`find_plane_by_type` may report plane id 0 = none, which is
non-fatal). -/
structure InitEnv where
  debug : DebugEnv
  openOk : Bool
  fdVal : Int
  resOk : Bool
  connFound : Bool
  connId : Nat
  dispW : Nat
  dispH : Nat
  crtcFound : Bool
  crtcIdVal : Nat
  planeIdVal : Nat
  planeOverlay : Bool
  modeBufOk : Bool
  setCrtcOk : Bool
deriving DecidableEq

/-- The `drm_display_init` function (`drm_display.cpp:217-383`) as a
state transition.  Note which fields it writes: fd, connector, display
dimensions, CRTC, plane, frame counter — and nothing else; the initial
`drmModeSetCrtc` failure is explicitly non-fatal in the code. -/
def initStep (env : InitEnv) (st0 : DrmState) : Bool × DrmState :=
  let st := initDebugFlags env.debug st0
  if !env.openOk then (false, { st with fd := -1 })
  else
    let st1 := { st with fd := env.fdVal }
    if !env.resOk then (false, st1)
    else if !env.connFound then (false, st1)
    else
      let st2 := { st1 with
                    connectorId := env.connId
                    displayWidth := env.dispW
                    displayHeight := env.dispH }
      if !env.crtcFound then (false, st2)
      else
        let st3 := { st2 with
                      crtcId := env.crtcIdVal
                      planeId := env.planeIdVal
                      planeIsOverlay := env.planeOverlay }
        if !env.modeBufOk then (false, st3)
        else (true, { st3 with frameCount := 0 })

/-- Iterating `present` with a fixed environment and fixed source
parameters. -/
def presentIter (denv : DebugEnv) (env : Env) (w h stride : Nat) (st : DrmState) :
    Nat → DrmState
  | 0 => st
  | n + 1 => (presentStep denv env (presentIter denv env w h stride st n) w h stride).2.1

/-- Iterating `present` with per-call environments and source
parameters. -/
def presentSeq (inputs : Nat → DebugEnv × Env × Nat × Nat × Nat) (st : DrmState) :
    Nat → DrmState
  | 0 => st
  | n + 1 =>
    let i := inputs n
    (presentStep i.1 i.2.1 (presentSeq inputs st n) i.2.2.1 i.2.2.2.1 i.2.2.2.2).2.1

/-! ### Zero-copy GPU display path (`interface.cpp:388-549,816-925`)

The static globals `gpu_display_ready`, `gpu_display_failed`,
`gpu_display_idx` become a state record; Vulkan/DRM call outcomes come
from an environment; per-frame work is recorded as an event trace.
The CPU fallback branch of `render_frame` calls `drm_display_present`,
i.e. the `presentStep` machine above, on the DRM state; here only the
choice of pipeline is tracked. -/

/-- Static state of the zero-copy path (`interface.cpp:398-401`). -/
structure GpuState where
  ready : Bool
  failed : Bool
  idx : Nat
deriving DecidableEq

/-- Outcomes of the kernel/Vulkan calls made by `init_gpu_display` (per
buffer index) and by the frame path of `render_frame`. -/
structure GpuEnv where
  createOk : Nat → Bool
  addFbAbgrOk : Nat → Bool
  addFbXbgrOk : Nat → Bool
  primeOk : Nat → Bool
  importOk : Nat → Bool
  scanoutOk : Bool
  flipOk : Bool
  cpuW : Nat
  cpuH : Nat
  cpuPixels : Nat

/-- Events of the GPU display path and the CPU fallback. -/
inductive GEv
  | gpuCreate (i : Nat)
  | gpuAddFb (i : Nat)
  | gpuPrime (i : Nat)
  | gpuImport (i : Nat)
  | gpuScanout
  | gpuBlit
  | gpuFlip
  | cpuScanout
  | cpuPresent
deriving DecidableEq

/-- One iteration of the `init_gpu_display` loop
(`interface.cpp:413-520`): dumb-buffer creation, AddFB2 (ABGR8888 then
XBGR8888 fallback), DMA-buf export, Vulkan import; any failure aborts. -/
def gpuInitAttempt (env : GpuEnv) (i : Nat) : Bool × List GEv :=
  if !env.createOk i then (false, [GEv.gpuCreate i])
  else
    let ev1 := [GEv.gpuCreate i, GEv.gpuAddFb i]
    if !(env.addFbAbgrOk i || env.addFbXbgrOk i) then (false, ev1)
    else if !env.primeOk i then (false, ev1 ++ [GEv.gpuPrime i])
    else if !env.importOk i then (false, ev1 ++ [GEv.gpuPrime i, GEv.gpuImport i])
    else (true, ev1 ++ [GEv.gpuPrime i, GEv.gpuImport i])

/-- The `init_gpu_display` function (`interface.cpp:403-525`): returns
immediately once failed or ready; otherwise attempts both buffers and
latches `gpu_display_failed` on the first failing step. -/
def initGpuDisplay (env : GpuEnv) (gs : GpuState) : Bool × GpuState × List GEv :=
  if gs.failed then (false, gs, [])
  else if gs.ready then (true, gs, [])
  else
    let a0 := gpuInitAttempt env 0
    if !a0.1 then (false, { gs with failed := true }, a0.2)
    else
      let a1 := gpuInitAttempt env 1
      if !a1.1 then (false, { gs with failed := true }, a0.2 ++ a1.2)
      else (true, { gs with ready := true }, a0.2 ++ a1.2)

/-- The CPU readback fallback of `render_frame`
(`interface.cpp:886-925`): `scanout_sync`, the size checks, then
`drm_display_present`. -/
def cpuPathEvs (env : GpuEnv) : List GEv :=
  if env.cpuW = 0 || env.cpuH = 0 || env.cpuPixels = 0 then [GEv.cpuScanout]
  else if env.cpuPixels < env.cpuW * env.cpuH then [GEv.cpuScanout]
  else [GEv.cpuScanout, GEv.cpuPresent]

/-- Frame dispatch of `render_frame` (`interface.cpp:816-925`): the
zero-copy path when `init_gpu_display` succeeds (GPU scanout, GPU
blit + fence, DRM flip, index swap on flip success), the CPU fallback
otherwise. -/
def renderFrame (env : GpuEnv) (gs : GpuState) : GpuState × List GEv :=
  let r := initGpuDisplay env gs
  if r.1 then
    if env.scanoutOk then
      let evs := r.2.2 ++ [GEv.gpuScanout, GEv.gpuBlit, GEv.gpuFlip]
      if env.flipOk then ({ r.2.1 with idx := r.2.1.idx ^^^ 1 }, evs)
      else (r.2.1, evs)
    else (r.2.1, r.2.2 ++ [GEv.gpuScanout])
  else (r.2.1, r.2.2 ++ cpuPathEvs env)

/-- Iterating `render_frame` with per-frame environments. -/
def renderFrames (envs : Nat → GpuEnv) (gs : GpuState) : Nat → GpuState
  | 0 => gs
  | n + 1 => (renderFrame (envs n) (renderFrames envs gs n)).1

/-! ### Fast-path geometry -/

/-- Destination pixel `(cX * x + dx, cY * y + dy)` of an integer
`cX x cY` upscale blit carries byte `k` of the converted source pixel
`(x, y)`, for any in-range sub-position `(dx, dy)` of the block. -/
theorem blitFast_pix (rgba : Nat → Nat) (stride w h cX cY x y dx dy k : Nat)
    (hw : 0 < w) (hh : 0 < h) (hcx1 : 0 < cX) (hcx4 : cX ≤ 4)
    (hcy1 : 0 < cY) (hcy4 : cY ≤ 4)
    (hx : x < w) (hy : y < h) (hdx : dx < cX) (hdy : dy < cY) (hk : k < 4) :
    dstByte (blitRows rgba stride w h (cX * w) (cY * h)) (cY * y + dy) (4 * (cX * x + dx) + k)
      = (srcPixBytes rgba stride y x).getD k 0 := by
  have hdivX : cX * w / w = cX := Nat.mul_div_cancel cX hw
  have hdivY : cY * h / h = cY := Nat.mul_div_cancel cY hh
  have hmodX : cX * w % w = 0 := Nat.mul_mod_left cX w
  have hmodY : cY * h % h = 0 := Nat.mul_mod_left cY h
  rw [blitRows, if_pos ⟨hw, hh, hmodX, hmodY⟩]
  simp only [hdivX, hdivY]
  rw [if_pos ⟨hcx1, hcy1, hcx4, hcy4⟩]
  have hrow : cY * y + dy < h * cY := by
    have h1 : cY * (y + 1) ≤ cY * h := Nat.mul_le_mul_left cY hy
    have h2 : cY * (y + 1) = cY * y + cY := Nat.mul_succ cY y
    have h3 : h * cY = cY * h := Nat.mul_comm h cY
    omega
  rw [dstByte, fastRows_getD rgba stride w h cX cY _ hcy1 hrow]
  have hq : (cY * y + dy) / cY = y := by
    rw [Nat.mul_add_div hcy1, Nat.div_eq_of_lt hdy]
    omega
  rw [hq, expandRow_eq_scalar]
  have hp : cX * x + dx < w * cX := by
    have h1 : cX * (x + 1) ≤ cX * w := Nat.mul_le_mul_left cX hx
    have h2 : cX * (x + 1) = cX * x + cX := Nat.mul_succ cX x
    have h3 : w * cX = cX * w := Nat.mul_comm w cX
    omega
  rw [expandRowScalar_pix rgba stride y w cX (cX * x + dx) k hp hk]
  have hq2 : (cX * x + dx) / cX = x := by
    rw [Nat.mul_add_div hcx1, Nat.div_eq_of_lt hdx]
    omega
  rw [hq2]

/-- C1: for an exact-ratio blit (destination = source dimensions) every
output pixel `(x, y)` is source pixel `(x, y)` with channels reordered
to little-endian `[B, G, R, 0]` and the pad byte zero; and for a x2
horizontal / x3 vertical blit the whole 2x3 destination block of source
pixel `(x, y)` is uniform and equal to that channel-reordered pixel. -/
theorem c1_blit_geometry (rgba : Nat → Nat) (stride w h x y dx dy : Nat)
    (hw : 0 < w) (hh : 0 < h) (hx : x < w) (hy : y < h) (hdx : dx < 2) (hdy : dy < 3) :
    (dstByte (blitRows rgba stride w h w h) y (4 * x) = srcB rgba stride y x 2
     ∧ dstByte (blitRows rgba stride w h w h) y (4 * x + 1) = srcB rgba stride y x 1
     ∧ dstByte (blitRows rgba stride w h w h) y (4 * x + 2) = srcB rgba stride y x 0
     ∧ dstByte (blitRows rgba stride w h w h) y (4 * x + 3) = 0)
    ∧ (dstByte (blitRows rgba stride w h (2 * w) (3 * h)) (3 * y + dy) (4 * (2 * x + dx))
         = srcB rgba stride y x 2
       ∧ dstByte (blitRows rgba stride w h (2 * w) (3 * h)) (3 * y + dy) (4 * (2 * x + dx) + 1)
         = srcB rgba stride y x 1
       ∧ dstByte (blitRows rgba stride w h (2 * w) (3 * h)) (3 * y + dy) (4 * (2 * x + dx) + 2)
         = srcB rgba stride y x 0
       ∧ dstByte (blitRows rgba stride w h (2 * w) (3 * h)) (3 * y + dy) (4 * (2 * x + dx) + 3)
         = 0) := by
  have e1 : ∀ k, k < 4 →
      dstByte (blitRows rgba stride w h w h) y (4 * x + k)
        = (srcPixBytes rgba stride y x).getD k 0 := by
    intro k hk
    have := blitFast_pix rgba stride w h 1 1 x y 0 0 k hw hh
      (by omega) (by omega) (by omega) (by omega) hx hy (by omega) (by omega) hk
    simpa using this
  have e2 : ∀ k, k < 4 →
      dstByte (blitRows rgba stride w h (2 * w) (3 * h)) (3 * y + dy) (4 * (2 * x + dx) + k)
        = (srcPixBytes rgba stride y x).getD k 0 :=
    fun k hk => blitFast_pix rgba stride w h 2 3 x y dx dy k hw hh
      (by omega) (by omega) (by omega) (by omega) hx hy hdx hdy hk
  refine ⟨⟨?_, ?_, ?_, ?_⟩, ?_, ?_, ?_, ?_⟩
  · have := e1 0 (by omega); simpa [srcPixBytes] using this
  · exact (e1 1 (by omega)).trans (by simp [srcPixBytes])
  · exact (e1 2 (by omega)).trans (by simp [srcPixBytes])
  · exact (e1 3 (by omega)).trans (by simp [srcPixBytes])
  · exact (e2 0 (by omega)).trans (by simp [srcPixBytes])
  · exact (e2 1 (by omega)).trans (by simp [srcPixBytes])
  · exact (e2 2 (by omega)).trans (by simp [srcPixBytes])
  · exact (e2 3 (by omega)).trans (by simp [srcPixBytes])

/-! ### State-machine lemmas -/

theorem initDebugFlags_id (denv : DebugEnv) (st : DrmState)
    (h : st.debugFlagsInitialized = true) : initDebugFlags denv st = st := by
  rw [initDebugFlags, if_pos h]

theorem dirtyStage_evs (env : Env) (st : DrmState) :
    ∀ e ∈ (dirtyStage env st).2, e = Ev.dirtyProbe ∨ e = Ev.dirtyCall := by
  intro e he
  rw [dirtyStage] at he
  split at he
  · simp at he; simp [he]
  · split at he
    · simp at he; simp [he]
    · simp at he

theorem flipStage_evs (env : Env) (st : DrmState) :
    ∀ e ∈ (flipStage env st).2.2,
      e = Ev.setCrtc ∨ e = Ev.pageFlip ∨ e = Ev.vblankWait := by
  intro e he
  rw [flipStage] at he
  split at he
  · split at he <;> (simp at he; simp [he])
  · split at he
    · simp at he; simp [he]
    · simp at he; simp [he]
    · cases hv : st.debugNoVblankSync <;> rw [hv] at he <;> simp only [Bool.false_eq_true, if_false, if_true] at he <;> split at he <;> (simp at he; tauto)

/-- State of the pool right after `present` destroys and recreates both
buffers (`drm_display.cpp:402-421`). -/
def reallocState (st : DrmState) (w h : Nat) : DrmState :=
  { st with srcWidth := w, srcHeight := h, buffersReady := true, currentBuffer := 0 }

/-- Normal form of a `present` call that reallocates the pool. -/
theorem presentStep_realloc (denv : DebugEnv) (env : Env) (st : DrmState) (w h stride : Nat)
    (hflags : st.debugFlagsInitialized = true)
    (hstride : ¬ stride % 2 ^ 32 < (4 * w) % 2 ^ 32)
    (hre : (!st.buffersReady || st.srcWidth != w || st.srcHeight != h) = true)
    (hcreate : env.createOk = true) :
    presentStep denv env st w h stride =
      ((flipStage env (dirtyStage env (reallocState st w h)).1).1,
       (flipStage env (dirtyStage env (reallocState st w h)).1).2.1,
       [Ev.destroyBuf 0, Ev.destroyBuf 1,
        Ev.allocBuf 0 st.displayWidth st.displayHeight,
        Ev.allocBuf 1 st.displayWidth st.displayHeight,
        Ev.writeFrame]
       ++ (if st.debugForceMsync then [Ev.msync] else [])
       ++ (dirtyStage env (reallocState st w h)).2
       ++ (flipStage env (dirtyStage env (reallocState st w h)).1).2.2) := by
  rw [presentStep, initDebugFlags_id denv st hflags, if_neg hstride]
  simp [hre, hcreate, reallocState]

/-- Normal form of a `present` call whose source size matches the
pool: no destroy, no allocation. -/
theorem presentStep_noRealloc (denv : DebugEnv) (env : Env) (st : DrmState) (w h stride : Nat)
    (hflags : st.debugFlagsInitialized = true)
    (hstride : ¬ stride % 2 ^ 32 < (4 * w) % 2 ^ 32)
    (hbr : st.buffersReady = true) (hsw : st.srcWidth = w) (hsh : st.srcHeight = h) :
    presentStep denv env st w h stride =
      ((flipStage env (dirtyStage env st).1).1,
       (flipStage env (dirtyStage env st).1).2.1,
       [Ev.writeFrame]
       ++ (if st.debugForceMsync then [Ev.msync] else [])
       ++ (dirtyStage env st).2
       ++ (flipStage env (dirtyStage env st).1).2.2) := by
  rw [presentStep, initDebugFlags_id denv st hflags, if_neg hstride]
  simp [hbr, hsw, hsh]

theorem dirtyStage_unchecked (env : Env) (st : DrmState) (h : st.dirtyfbChecked = false) :
    dirtyStage env st
      = ({ st with dirtyfbChecked := true, dirtyfbSupported := env.dirtyfbOk },
         [Ev.dirtyProbe]) := by
  rw [dirtyStage]; simp [h]

theorem dirtyStage_checked_sup (env : Env) (st : DrmState)
    (h : st.dirtyfbChecked = true) (hs : st.dirtyfbSupported = true) :
    dirtyStage env st = (st, [Ev.dirtyCall]) := by
  rw [dirtyStage]; simp [h, hs]

theorem dirtyStage_checked_unsup (env : Env) (st : DrmState)
    (h : st.dirtyfbChecked = true) (hs : st.dirtyfbSupported = false) :
    dirtyStage env st = (st, []) := by
  rw [dirtyStage]; simp [h, hs]

theorem flipStage_first (env : Env) (st : DrmState) (h : st.modeSet = false) :
    flipStage env st
      = (if env.setCrtcOk then
          (true, { st with
                    modeSet := true
                    currentBuffer := st.currentBuffer ^^^ 1
                    frameCount := st.frameCount + 1 }, [Ev.setCrtc])
         else (false, st, [Ev.setCrtc])) := by
  rw [flipStage]; simp [h]

theorem flipStage_flip_ok (env : Env) (st : DrmState)
    (h : st.modeSet = true) (hf : env.flip1 = FlipRes.ok) :
    flipStage env st
      = (true, { st with
                  currentBuffer := st.currentBuffer ^^^ 1
                  frameCount := st.frameCount + 1 }, [Ev.pageFlip]) := by
  rw [flipStage]; simp [h, hf]

theorem flipStage_busy_retry_ok (env : Env) (st : DrmState)
    (h : st.modeSet = true) (hf : env.flip1 = FlipRes.busy)
    (hv : st.debugNoVblankSync = false) (h2 : env.flip2 = FlipRes.ok) :
    flipStage env st
      = (true, { st with
                  currentBuffer := st.currentBuffer ^^^ 1
                  frameCount := st.frameCount + 1 },
         [Ev.pageFlip, Ev.vblankWait, Ev.pageFlip]) := by
  rw [flipStage]; simp [h, hf, hv, h2]

theorem flipStage_busy_retry_fail (env : Env) (st : DrmState)
    (h : st.modeSet = true) (hf : env.flip1 = FlipRes.busy)
    (hv : st.debugNoVblankSync = false) (h2 : env.flip2 ≠ FlipRes.ok) :
    flipStage env st
      = (false, { st with setcrtcErrorLogged := true },
         [Ev.pageFlip, Ev.vblankWait, Ev.pageFlip]) := by
  cases hc : env.flip2
  · exact absurd hc h2
  · rw [flipStage]; simp [h, hf, hv, hc]
  · rw [flipStage]; simp [h, hf, hv, hc]

/-! ### Claim C2 -/

/-- C2: a `present` whose `(width, height)` differ from the pool's last
source size (or with a never-sized pool) destroys both double-buffer
members and recreates them at the display's native resolution
(`display_width x display_height`, independent of the source size)
before the frame is written; a `present` with matching source size
performs no buffer destruction or allocation. -/
theorem c2_resize_correctness (denv : DebugEnv) (env : Env) (st : DrmState)
    (w h stride : Nat)
    (hflags : st.debugFlagsInitialized = true)
    (hstride : ¬ stride % 2 ^ 32 < (4 * w) % 2 ^ 32)
    (hcreate : env.createOk = true) :
    ((st.buffersReady = false ∨ st.srcWidth ≠ w ∨ st.srcHeight ≠ h) →
      ∃ rest, (presentStep denv env st w h stride).2.2
        = [Ev.destroyBuf 0, Ev.destroyBuf 1,
           Ev.allocBuf 0 st.displayWidth st.displayHeight,
           Ev.allocBuf 1 st.displayWidth st.displayHeight,
           Ev.writeFrame] ++ rest)
    ∧ (st.buffersReady = true → st.srcWidth = w → st.srcHeight = h →
      ∀ e ∈ (presentStep denv env st w h stride).2.2,
        (∀ i, e ≠ Ev.destroyBuf i) ∧ (∀ i a b, e ≠ Ev.allocBuf i a b)) := by
  constructor
  · intro hdiff
    have hre : (!st.buffersReady || st.srcWidth != w || st.srcHeight != h) = true := by
      rcases hdiff with h1 | h1 | h1 <;> simp [h1]
    rw [presentStep_realloc denv env st w h stride hflags hstride hre hcreate]
    exact ⟨(if st.debugForceMsync then [Ev.msync] else [])
            ++ (dirtyStage env (reallocState st w h)).2
            ++ (flipStage env (dirtyStage env (reallocState st w h)).1).2.2, by simp⟩
  · intro hbr hsw hsh e he
    rw [presentStep_noRealloc denv env st w h stride hflags hstride hbr hsw hsh] at he
    simp only [List.append_assoc, List.mem_append] at he
    rcases he with he | he | he | he
    · simp at he; subst he
      exact ⟨fun i => by simp, fun i a b => by simp⟩
    · have hm : e = Ev.msync := by
        rcases hfm : st.debugForceMsync <;> rw [hfm] at he <;> simp at he
        exact he
      subst hm
      exact ⟨fun i => by simp, fun i a b => by simp⟩
    · rcases dirtyStage_evs env st e he with h1 | h1 <;> subst h1 <;>
        exact ⟨fun i => by simp, fun i a b => by simp⟩
    · rcases flipStage_evs env (dirtyStage env st).1 e he with h1 | h1 | h1 <;> subst h1 <;>
        exact ⟨fun i => by simp, fun i a b => by simp⟩

theorem dirtyStage_modeSet (env : Env) (st : DrmState) :
    (dirtyStage env st).1.modeSet = st.modeSet := by
  rw [dirtyStage]; split <;> first | rfl | (split <;> rfl)

theorem dirtyStage_currentBuffer (env : Env) (st : DrmState) :
    (dirtyStage env st).1.currentBuffer = st.currentBuffer := by
  rw [dirtyStage]; split <;> first | rfl | (split <;> rfl)

theorem dirtyStage_frameCount (env : Env) (st : DrmState) :
    (dirtyStage env st).1.frameCount = st.frameCount := by
  rw [dirtyStage]; split <;> first | rfl | (split <;> rfl)

theorem dirtyStage_buffersReady (env : Env) (st : DrmState) :
    (dirtyStage env st).1.buffersReady = st.buffersReady := by
  rw [dirtyStage]; split <;> first | rfl | (split <;> rfl)

theorem dirtyStage_srcWidth (env : Env) (st : DrmState) :
    (dirtyStage env st).1.srcWidth = st.srcWidth := by
  rw [dirtyStage]; split <;> first | rfl | (split <;> rfl)

theorem dirtyStage_srcHeight (env : Env) (st : DrmState) :
    (dirtyStage env st).1.srcHeight = st.srcHeight := by
  rw [dirtyStage]; split <;> first | rfl | (split <;> rfl)

theorem dirtyStage_flagsInit (env : Env) (st : DrmState) :
    (dirtyStage env st).1.debugFlagsInitialized = st.debugFlagsInitialized := by
  rw [dirtyStage]; split <;> first | rfl | (split <;> rfl)

theorem dirtyStage_noVblank (env : Env) (st : DrmState) :
    (dirtyStage env st).1.debugNoVblankSync = st.debugNoVblankSync := by
  rw [dirtyStage]; split <;> first | rfl | (split <;> rfl)

theorem dirtyStage_checked_after (env : Env) (st : DrmState) :
    (dirtyStage env st).1.dirtyfbChecked = true := by
  rw [dirtyStage]
  split
  · rfl
  · next hcond =>
    have : st.dirtyfbChecked = true := by
      rcases hc : st.dirtyfbChecked
      · exact absurd (by simp [hc]) hcond
      · rfl
    split <;> simpa using this

theorem flipStage_first_evs (env : Env) (st : DrmState) (h : st.modeSet = false) :
    (flipStage env st).2.2 = [Ev.setCrtc] := by
  rw [flipStage_first env st h]; split <;> rfl

theorem flipStage_later_evs (env : Env) (st : DrmState) (h : st.modeSet = true) :
    Ev.pageFlip ∈ (flipStage env st).2.2 ∧ Ev.setCrtc ∉ (flipStage env st).2.2 := by
  rw [flipStage]
  simp only [h]
  cases hf : env.flip1
  · simp
  · cases hv : st.debugNoVblankSync <;> simp [hv] <;> cases h2 : env.flip2 <;> simp
  · simp

theorem flipStage_busy_evs (env : Env) (st : DrmState)
    (h : st.modeSet = true) (hf : env.flip1 = FlipRes.busy)
    (hv : st.debugNoVblankSync = false) :
    (flipStage env st).2.2 = [Ev.pageFlip, Ev.vblankWait, Ev.pageFlip] := by
  cases h2 : env.flip2
  · rw [flipStage_busy_retry_ok env st h hf hv h2]
  · rw [flipStage_busy_retry_fail env st h hf hv (by simp [h2])]
  · rw [flipStage_busy_retry_fail env st h hf hv (by simp [h2])]

/-- One steady-state `present` with a succeeding flip: returns true,
swaps the front/back index exactly once, increments the frame counter
exactly once, and preserves the pool bookkeeping. -/
theorem presentStep_steady_success (denv : DebugEnv) (env : Env) (st : DrmState)
    (w h stride : Nat)
    (hflags : st.debugFlagsInitialized = true)
    (hstride : ¬ stride % 2 ^ 32 < (4 * w) % 2 ^ 32)
    (hbr : st.buffersReady = true) (hsw : st.srcWidth = w) (hsh : st.srcHeight = h)
    (hms : st.modeSet = true) (hf : env.flip1 = FlipRes.ok) :
    (presentStep denv env st w h stride).1 = true
    ∧ (presentStep denv env st w h stride).2.1.currentBuffer = st.currentBuffer ^^^ 1
    ∧ (presentStep denv env st w h stride).2.1.frameCount = st.frameCount + 1
    ∧ (presentStep denv env st w h stride).2.1.buffersReady = true
    ∧ (presentStep denv env st w h stride).2.1.srcWidth = w
    ∧ (presentStep denv env st w h stride).2.1.srcHeight = h
    ∧ (presentStep denv env st w h stride).2.1.modeSet = true
    ∧ (presentStep denv env st w h stride).2.1.debugFlagsInitialized = true := by
  rw [presentStep_noRealloc denv env st w h stride hflags hstride hbr hsw hsh]
  rw [flipStage_flip_ok env (dirtyStage env st).1 (by rw [dirtyStage_modeSet, hms]) hf]
  refine ⟨rfl, ?_, ?_, ?_, ?_, ?_, ?_, ?_⟩
  · simp [dirtyStage_currentBuffer]
  · simp [dirtyStage_frameCount]
  · simp [dirtyStage_buffersReady, hbr]
  · simp [dirtyStage_srcWidth, hsw]
  · simp [dirtyStage_srcHeight, hsh]
  · simp [dirtyStage_modeSet, hms]
  · simp [dirtyStage_flagsInit, hflags]

/-! ### Claim C5 -/

/-- C5: starting from a freshly sized pool (current index 0, steady
state, no intervening resize), every present succeeds, after `N`
presents the front/back index is `N % 2` and the frame counter has
advanced by `N`, and each step swaps the index exactly once and
increments the counter exactly once. -/
theorem c5_double_buffer_alternation (denv : DebugEnv) (env : Env) (st : DrmState)
    (w h stride N : Nat)
    (hflags : st.debugFlagsInitialized = true)
    (hstride : ¬ stride % 2 ^ 32 < (4 * w) % 2 ^ 32)
    (hbr : st.buffersReady = true) (hsw : st.srcWidth = w) (hsh : st.srcHeight = h)
    (hms : st.modeSet = true) (hcur : st.currentBuffer = 0)
    (hf : env.flip1 = FlipRes.ok) :
    (∀ n, (presentStep denv env (presentIter denv env w h stride st n) w h stride).1 = true)
    ∧ (presentIter denv env w h stride st N).currentBuffer = N % 2
    ∧ (presentIter denv env w h stride st N).frameCount = st.frameCount + N
    ∧ (∀ n,
        (presentIter denv env w h stride st (n + 1)).currentBuffer
          = (presentIter denv env w h stride st n).currentBuffer ^^^ 1
        ∧ (presentIter denv env w h stride st (n + 1)).frameCount
          = (presentIter denv env w h stride st n).frameCount + 1) := by
  have inv : ∀ n,
      (presentIter denv env w h stride st n).debugFlagsInitialized = true
      ∧ (presentIter denv env w h stride st n).buffersReady = true
      ∧ (presentIter denv env w h stride st n).srcWidth = w
      ∧ (presentIter denv env w h stride st n).srcHeight = h
      ∧ (presentIter denv env w h stride st n).modeSet = true
      ∧ (presentIter denv env w h stride st n).currentBuffer = n % 2
      ∧ (presentIter denv env w h stride st n).frameCount = st.frameCount + n := by
    intro n
    induction n with
    | zero => exact ⟨hflags, hbr, hsw, hsh, hms, by simpa using hcur, by simp [presentIter]⟩
    | succ m ih =>
      obtain ⟨i1, i2, i3, i4, i5, i6, i7⟩ := ih
      obtain ⟨s1, s2, s3, s4, s5, s6, s7, s8⟩ :=
        presentStep_steady_success denv env (presentIter denv env w h stride st m)
          w h stride i1 hstride i2 i3 i4 i5 hf
      refine ⟨s8, s4, s5, s6, s7, ?_, ?_⟩
      · show (presentStep denv env (presentIter denv env w h stride st m) w h stride).2.1.currentBuffer
          = (m + 1) % 2
        rw [s2, i6]
        rcases Nat.mod_two_eq_zero_or_one m with hm | hm
        · rw [hm]
          have h1 : (m + 1) % 2 = 1 := by omega
          rw [h1]; decide
        · rw [hm]
          have h1 : (m + 1) % 2 = 0 := by omega
          rw [h1]; decide
      · show (presentStep denv env (presentIter denv env w h stride st m) w h stride).2.1.frameCount
          = st.frameCount + (m + 1)
        rw [s3, i7]
        omega
  refine ⟨?_, (inv N).2.2.2.2.2.1, (inv N).2.2.2.2.2.2, ?_⟩
  · intro n
    obtain ⟨i1, i2, i3, i4, i5, _, _⟩ := inv n
    exact (presentStep_steady_success denv env _ w h stride i1 hstride i2 i3 i4 i5 hf).1
  · intro n
    obtain ⟨i1, i2, i3, i4, i5, _, _⟩ := inv n
    obtain ⟨_, s2, s3, _⟩ :=
      presentStep_steady_success denv env _ w h stride i1 hstride i2 i3 i4 i5 hf
    exact ⟨s2, s3⟩

theorem initDebugFlags_checked (denv : DebugEnv) (st : DrmState) :
    (initDebugFlags denv st).dirtyfbChecked = st.dirtyfbChecked := by
  rw [initDebugFlags]; split <;> rfl

theorem initDebugFlags_supported (denv : DebugEnv) (st : DrmState) :
    (initDebugFlags denv st).dirtyfbSupported = st.dirtyfbSupported := by
  rw [initDebugFlags]; split <;> rfl

theorem initDebugFlags_flagsInit (denv : DebugEnv) (st : DrmState) :
    (initDebugFlags denv st).debugFlagsInitialized = true := by
  rw [initDebugFlags]
  split
  · next hcond => exact hcond
  · rfl

/-- Running `present` is the same as running it on the state with the
debug flags already latched (`init_debug_flags` is idempotent). -/
theorem presentStep_initFlags (denv : DebugEnv) (env : Env) (st : DrmState)
    (w h stride : Nat) :
    presentStep denv env st w h stride
      = presentStep denv env (initDebugFlags denv st) w h stride := by
  conv_rhs => rw [presentStep,
    initDebugFlags_id denv (initDebugFlags denv st) (initDebugFlags_flagsInit denv st)]
  rw [presentStep]

/-- Normal form of a stride-rejected `present` call. -/
theorem presentStep_strideFail (denv : DebugEnv) (env : Env) (st : DrmState)
    (w h stride : Nat) (hflags : st.debugFlagsInitialized = true)
    (hstr : stride % 2 ^ 32 < (4 * w) % 2 ^ 32) :
    presentStep denv env st w h stride = (false, st, []) := by
  rw [presentStep, initDebugFlags_id denv st hflags, if_pos hstr]

/-- Normal form of a `present` call whose pool reallocation fails. -/
theorem presentStep_reallocFail (denv : DebugEnv) (env : Env) (st : DrmState)
    (w h stride : Nat) (hflags : st.debugFlagsInitialized = true)
    (hstride : ¬ stride % 2 ^ 32 < (4 * w) % 2 ^ 32)
    (hre : (!st.buffersReady || st.srcWidth != w || st.srcHeight != h) = true)
    (hcreate : env.createOk = false) :
    presentStep denv env st w h stride
      = (false, { st with srcWidth := w, srcHeight := h },
         [Ev.destroyBuf 0, Ev.destroyBuf 1]) := by
  rw [presentStep, initDebugFlags_id denv st hflags, if_neg hstride]
  simp [hre, hcreate]

/-- The state produced by `flipStage` is one of four explicit record
updates of its input. -/
theorem flipStage_state_cases (env : Env) (st : DrmState) :
    (flipStage env st).2.1 = st
    ∨ (flipStage env st).2.1 = { st with setcrtcErrorLogged := true }
    ∨ (flipStage env st).2.1
        = { st with
              modeSet := true
              currentBuffer := st.currentBuffer ^^^ 1
              frameCount := st.frameCount + 1 }
    ∨ (flipStage env st).2.1
        = { st with
              currentBuffer := st.currentBuffer ^^^ 1
              frameCount := st.frameCount + 1 } := by
  rw [flipStage]
  cases hms : st.modeSet
  · simp only [Bool.not_false, if_true, Bool.false_eq_true]
    cases hc : env.setCrtcOk <;> simp
  · simp only [Bool.not_true, Bool.true_eq_false, if_false]
    cases hf : env.flip1
    · simp
    · cases hv : st.debugNoVblankSync <;> simp only [hv] <;>
        cases h2 : env.flip2 <;> simp
    · simp

theorem dirtyStage_supported_checked (env : Env) (st : DrmState)
    (h : st.dirtyfbChecked = true) :
    (dirtyStage env st).1.dirtyfbSupported = st.dirtyfbSupported := by
  rw [dirtyStage]
  split
  · next hc => rw [h] at hc; simp at hc
  · split <;> rfl

/-- Once the dirtyfb capability has been probed, the dirty/flip stages
preserve the probe result and never emit another probe. -/
theorem dirtyFlip_preserved (env : Env) (ps : DrmState) (hpc : ps.dirtyfbChecked = true) :
    (flipStage env (dirtyStage env ps).1).2.1.dirtyfbChecked = true
    ∧ (flipStage env (dirtyStage env ps).1).2.1.dirtyfbSupported = ps.dirtyfbSupported
    ∧ Ev.dirtyProbe ∉ (dirtyStage env ps).2
    ∧ Ev.dirtyProbe ∉ (flipStage env (dirtyStage env ps).1).2.2 := by
  have hd1 : (dirtyStage env ps).1.dirtyfbChecked = true := dirtyStage_checked_after env ps
  have hd2 : (dirtyStage env ps).1.dirtyfbSupported = ps.dirtyfbSupported :=
    dirtyStage_supported_checked env ps hpc
  refine ⟨?_, ?_, ?_, ?_⟩
  · rcases flipStage_state_cases env (dirtyStage env ps).1 with hc | hc | hc | hc <;>
      rw [hc] <;> simpa using hd1
  · rcases flipStage_state_cases env (dirtyStage env ps).1 with hc | hc | hc | hc <;>
      rw [hc] <;> simpa using hd2
  · intro hm
    rw [dirtyStage] at hm
    rcases hcond : ps.dirtyfbChecked
    · rw [hcond] at hpc; cases hpc
    · rw [hcond] at hm
      simp only [Bool.not_true] at hm
      rw [if_neg (by simp)] at hm
      split at hm <;> simp at hm
  · intro hm
    rcases flipStage_evs env (dirtyStage env ps).1 _ hm with h1 | h1 | h1 <;> simp at h1

/-- Any `present` call on a session whose dirtyfb capability has been
probed keeps the probe flags and never probes again. -/
theorem presentStep_dirty_preserved (denv : DebugEnv) (env : Env) (st : DrmState)
    (w h stride : Nat) (hck : st.dirtyfbChecked = true) :
    (presentStep denv env st w h stride).2.1.dirtyfbChecked = true
    ∧ (presentStep denv env st w h stride).2.1.dirtyfbSupported = st.dirtyfbSupported
    ∧ Ev.dirtyProbe ∉ (presentStep denv env st w h stride).2.2 := by
  rw [presentStep_initFlags]
  have h1 : (initDebugFlags denv st).dirtyfbChecked = true := by
    rw [initDebugFlags_checked]; exact hck
  have h2 : (initDebugFlags denv st).dirtyfbSupported = st.dirtyfbSupported :=
    initDebugFlags_supported denv st
  have hfl : (initDebugFlags denv st).debugFlagsInitialized = true :=
    initDebugFlags_flagsInit denv st
  by_cases hstr : stride % 2 ^ 32 < (4 * w) % 2 ^ 32
  · rw [presentStep_strideFail denv env (initDebugFlags denv st) w h stride hfl hstr]
    exact ⟨h1, h2, by simp⟩
  · cases hre : (!(initDebugFlags denv st).buffersReady
      || (initDebugFlags denv st).srcWidth != w
      || (initDebugFlags denv st).srcHeight != h)
    · have hb : ((initDebugFlags denv st).buffersReady = true
          ∧ (initDebugFlags denv st).srcWidth = w)
          ∧ (initDebugFlags denv st).srcHeight = h := by
        simpa using hre
      rw [presentStep_noRealloc denv env (initDebugFlags denv st) w h stride hfl hstr
            hb.1.1 hb.1.2 hb.2]
      obtain ⟨p1, p2, p3, p4⟩ := dirtyFlip_preserved env (initDebugFlags denv st) h1
      refine ⟨p1, p2.trans h2, ?_⟩
      intro hm
      simp only [List.append_assoc, List.mem_append] at hm
      rcases hm with hm | hm | hm | hm
      · simp at hm
      · rcases hfm : (initDebugFlags denv st).debugForceMsync <;> rw [hfm] at hm <;> simp at hm
      · exact p3 hm
      · exact p4 hm
    · cases hcr : env.createOk
      · rw [presentStep_reallocFail denv env (initDebugFlags denv st) w h stride hfl hstr
              hre hcr]
        exact ⟨by simpa using h1, by simpa using h2, by simp⟩
      · rw [presentStep_realloc denv env (initDebugFlags denv st) w h stride hfl hstr
              hre hcr]
        have hpc : (reallocState (initDebugFlags denv st) w h).dirtyfbChecked = true := by
          simpa [reallocState] using h1
        obtain ⟨p1, p2, p3, p4⟩ :=
          dirtyFlip_preserved env (reallocState (initDebugFlags denv st) w h) hpc
        refine ⟨p1, ?_, ?_⟩
        · rw [p2]
          simpa [reallocState] using h2
        · intro hm
          simp only [List.append_assoc, List.mem_append] at hm
          rcases hm with hm | hm | hm
          · simp at hm
          · rcases hfm : (initDebugFlags denv st).debugForceMsync <;> rw [hfm] at hm <;>
              simp at hm
          · rcases hm with hm | hm
            · exact p3 hm
            · exact p4 hm

/-- Every pipeline-reaching `present` factors as a pool prefix (no
dirtyfb events) followed by the dirty and submission stages run on a
pool state that carries the caller's dirtyfb flags. -/
theorem presentStep_pool_cases (denv : DebugEnv) (env : Env) (st : DrmState)
    (w h stride : Nat)
    (hflags : st.debugFlagsInitialized = true)
    (hstride : ¬ stride % 2 ^ 32 < (4 * w) % 2 ^ 32)
    (hcreate : env.createOk = true) :
    ∃ (ps : DrmState) (pre : List Ev),
      ps.dirtyfbChecked = st.dirtyfbChecked
      ∧ ps.dirtyfbSupported = st.dirtyfbSupported
      ∧ ps.modeSet = st.modeSet
      ∧ ps.debugNoVblankSync = st.debugNoVblankSync
      ∧ Ev.dirtyProbe ∉ pre
      ∧ Ev.dirtyCall ∉ pre
      ∧ Ev.pageFlip ∉ pre
      ∧ Ev.setCrtc ∉ pre
      ∧ Ev.vblankWait ∉ pre
      ∧ presentStep denv env st w h stride
          = ((flipStage env (dirtyStage env ps).1).1,
             (flipStage env (dirtyStage env ps).1).2.1,
             pre ++ (dirtyStage env ps).2
                 ++ (flipStage env (dirtyStage env ps).1).2.2) := by
  cases hre : (!st.buffersReady || st.srcWidth != w || st.srcHeight != h)
  · have hb : (st.buffersReady = true ∧ st.srcWidth = w) ∧ st.srcHeight = h := by
      simpa using hre
    refine ⟨st, [Ev.writeFrame] ++ (if st.debugForceMsync then [Ev.msync] else []),
      rfl, rfl, rfl, rfl, ?_, ?_, ?_, ?_, ?_, ?_⟩
    · intro hm
      rcases hfm : st.debugForceMsync <;> rw [hfm] at hm <;> simp at hm
    · intro hm
      rcases hfm : st.debugForceMsync <;> rw [hfm] at hm <;> simp at hm
    · intro hm
      rcases hfm : st.debugForceMsync <;> rw [hfm] at hm <;> simp at hm
    · intro hm
      rcases hfm : st.debugForceMsync <;> rw [hfm] at hm <;> simp at hm
    · intro hm
      rcases hfm : st.debugForceMsync <;> rw [hfm] at hm <;> simp at hm
    · rw [presentStep_noRealloc denv env st w h stride hflags hstride hb.1.1 hb.1.2 hb.2]
  · refine ⟨reallocState st w h,
      [Ev.destroyBuf 0, Ev.destroyBuf 1,
       Ev.allocBuf 0 st.displayWidth st.displayHeight,
       Ev.allocBuf 1 st.displayWidth st.displayHeight,
       Ev.writeFrame] ++ (if st.debugForceMsync then [Ev.msync] else []),
      by simp [reallocState], by simp [reallocState], by simp [reallocState],
      by simp [reallocState], ?_, ?_, ?_, ?_, ?_, ?_⟩
    · intro hm
      rcases hfm : st.debugForceMsync <;> rw [hfm] at hm <;> simp at hm
    · intro hm
      rcases hfm : st.debugForceMsync <;> rw [hfm] at hm <;> simp at hm
    · intro hm
      rcases hfm : st.debugForceMsync <;> rw [hfm] at hm <;> simp at hm
    · intro hm
      rcases hfm : st.debugForceMsync <;> rw [hfm] at hm <;> simp at hm
    · intro hm
      rcases hfm : st.debugForceMsync <;> rw [hfm] at hm <;> simp at hm
    · rw [presentStep_realloc denv env st w h stride hflags hstride hre hcreate]

/-! ### Claim C3 -/

/-- C3: the first `present` after init (mode not yet set, pool in any
state — including the unsized pool `init` leaves behind) submits via a
full mode-set (`SetCrtc`, never `PageFlip`); every subsequent `present`
submits a `PageFlip` (never `SetCrtc`); a flip rejected with `EBUSY`
waits for one vertical blank and is retried exactly once (two flip
attempts, one vblank wait in the trace); if the retry also fails, a
steady-state call returns false without swapping the front/back index
or incrementing the frame counter, and a following `present` with a
succeeding flip returns true. -/
theorem c3_flip_protocol (denv : DebugEnv) (env env2 : Env) (st : DrmState)
    (w h stride : Nat)
    (hflags : st.debugFlagsInitialized = true)
    (hstride : ¬ stride % 2 ^ 32 < (4 * w) % 2 ^ 32)
    (hcreate : env.createOk = true)
    (hv : st.debugNoVblankSync = false) :
    (st.modeSet = false →
      Ev.setCrtc ∈ (presentStep denv env st w h stride).2.2
      ∧ Ev.pageFlip ∉ (presentStep denv env st w h stride).2.2)
    ∧ (st.modeSet = true →
      Ev.pageFlip ∈ (presentStep denv env st w h stride).2.2
      ∧ Ev.setCrtc ∉ (presentStep denv env st w h stride).2.2)
    ∧ (st.modeSet = true → env.flip1 = FlipRes.busy →
      ((presentStep denv env st w h stride).2.2.count Ev.pageFlip = 2
       ∧ (presentStep denv env st w h stride).2.2.count Ev.vblankWait = 1))
    ∧ (st.buffersReady = true → st.srcWidth = w → st.srcHeight = h →
       st.modeSet = true → env.flip1 = FlipRes.busy → env.flip2 ≠ FlipRes.ok →
      ((presentStep denv env st w h stride).1 = false
       ∧ (presentStep denv env st w h stride).2.1.currentBuffer = st.currentBuffer
       ∧ (presentStep denv env st w h stride).2.1.frameCount = st.frameCount
       ∧ (env2.flip1 = FlipRes.ok →
           (presentStep denv env2 (presentStep denv env st w h stride).2.1 w h stride).1
             = true))) := by
  obtain ⟨ps, pre, _, _, hpm, hpv, _, _, hpf, hsc, hvw, heq⟩ :=
    presentStep_pool_cases denv env st w h stride hflags hstride hcreate
  have hdm : (dirtyStage env ps).1.modeSet = ps.modeSet := dirtyStage_modeSet env ps
  have hdv : (dirtyStage env ps).1.debugNoVblankSync = ps.debugNoVblankSync :=
    dirtyStage_noVblank env ps
  have hdirtyNo : ∀ e, e ∈ (dirtyStage env ps).2 →
      e ≠ Ev.pageFlip ∧ e ≠ Ev.setCrtc ∧ e ≠ Ev.vblankWait := by
    intro e hm
    rcases dirtyStage_evs env ps _ hm with h1 | h1 <;> subst h1 <;>
      exact ⟨by simp, by simp, by simp⟩
  refine ⟨?_, ?_, ?_, ?_⟩
  · intro hms
    rw [heq]
    have hfe : (flipStage env (dirtyStage env ps).1).2.2 = [Ev.setCrtc] :=
      flipStage_first_evs env _ (by rw [hdm, hpm, hms])
    simp only [hfe]
    constructor
    · simp
    · intro hmem
      simp only [List.append_assoc, List.mem_append] at hmem
      rcases hmem with hm | hm | hm
      · exact hpf hm
      · exact (hdirtyNo _ hm).1 rfl
      · simp at hm
  · intro hms
    rw [heq]
    obtain ⟨hin, hout⟩ :=
      flipStage_later_evs env (dirtyStage env ps).1 (by rw [hdm, hpm, hms])
    constructor
    · simp only [List.append_assoc, List.mem_append]
      tauto
    · intro hmem
      simp only [List.append_assoc, List.mem_append] at hmem
      rcases hmem with hm | hm | hm
      · exact hsc hm
      · exact (hdirtyNo _ hm).2.1 rfl
      · exact hout hm
  · intro hms hbusy
    rw [heq]
    have hfe : (flipStage env (dirtyStage env ps).1).2.2
        = [Ev.pageFlip, Ev.vblankWait, Ev.pageFlip] :=
      flipStage_busy_evs env _ (by rw [hdm, hpm, hms]) hbusy (by rw [hdv, hpv, hv])
    have hdc : Ev.pageFlip ∉ (dirtyStage env ps).2 :=
      fun hm => (hdirtyNo _ hm).1 rfl
    have hdc2 : Ev.vblankWait ∉ (dirtyStage env ps).2 :=
      fun hm => (hdirtyNo _ hm).2.2 rfl
    rw [hfe]
    constructor
    · simp only [List.append_assoc, List.count_append]
      rw [List.count_eq_zero.mpr hpf, List.count_eq_zero.mpr hdc]
      decide
    · simp only [List.append_assoc, List.count_append]
      rw [List.count_eq_zero.mpr hvw, List.count_eq_zero.mpr hdc2]
      decide
  · intro hbr hsw hsh hms hbusy h2
    have hnr := presentStep_noRealloc denv env st w h stride hflags hstride hbr hsw hsh
    have hdm2 : (dirtyStage env st).1.modeSet = st.modeSet := dirtyStage_modeSet env st
    have hdv2 : (dirtyStage env st).1.debugNoVblankSync = st.debugNoVblankSync :=
      dirtyStage_noVblank env st
    have hff : flipStage env (dirtyStage env st).1
        = (false, { (dirtyStage env st).1 with setcrtcErrorLogged := true },
           [Ev.pageFlip, Ev.vblankWait, Ev.pageFlip]) :=
      flipStage_busy_retry_fail env _ (by rw [hdm2, hms]) hbusy (by rw [hdv2, hv]) h2
    rw [hnr, hff]
    refine ⟨rfl, by simp [dirtyStage_currentBuffer], by simp [dirtyStage_frameCount], ?_⟩
    intro hf2
    set st1 : DrmState :=
      { (dirtyStage env st).1 with setcrtcErrorLogged := true } with hst1
    have hflags1 : st1.debugFlagsInitialized = true := by
      simp [hst1, dirtyStage_flagsInit, hflags]
    have hbr1 : st1.buffersReady = true := by
      simp [hst1, dirtyStage_buffersReady, hbr]
    have hsw1 : st1.srcWidth = w := by
      simp [hst1, dirtyStage_srcWidth, hsw]
    have hsh1 : st1.srcHeight = h := by
      simp [hst1, dirtyStage_srcHeight, hsh]
    have hms1 : st1.modeSet = true := by
      simp [hst1, dirtyStage_modeSet, hms]
    rw [presentStep_noRealloc denv env2 st1 w h stride hflags1 hstride hbr1 hsw1 hsh1]
    have hfs := flipStage_flip_ok env2 (dirtyStage env2 st1).1
      (by rw [dirtyStage_modeSet, hms1]) hf2
    rw [hfs]

/-! ### Claim C6 -/

/-- C6: the dirty-notification capability is probed by the first
pipeline-reaching `present` exactly once, latching the result; a
session already probed never probes again (under any later call); when
the probe failed no later `present` issues any dirtyfb call; when it
succeeded every pipeline-reaching `present` issues exactly one; and
the latched flags persist over any continued sequence of presents. -/
theorem c6_dirtyfb_sticky (denv : DebugEnv) (env : Env) (st : DrmState)
    (w h stride : Nat)
    (hflags : st.debugFlagsInitialized = true)
    (hstride : ¬ stride % 2 ^ 32 < (4 * w) % 2 ^ 32)
    (hcreate : env.createOk = true) :
    (st.dirtyfbChecked = false →
      ((presentStep denv env st w h stride).2.2.count Ev.dirtyProbe = 1
       ∧ (presentStep denv env st w h stride).2.1.dirtyfbChecked = true
       ∧ (presentStep denv env st w h stride).2.1.dirtyfbSupported = env.dirtyfbOk))
    ∧ (st.dirtyfbChecked = true →
      ((presentStep denv env st w h stride).2.2.count Ev.dirtyProbe = 0
       ∧ (st.dirtyfbSupported = false →
           Ev.dirtyCall ∉ (presentStep denv env st w h stride).2.2)
       ∧ (st.dirtyfbSupported = true →
           (presentStep denv env st w h stride).2.2.count Ev.dirtyCall = 1)))
    ∧ (∀ denv2 env2 w2 h2 s2, st.dirtyfbChecked = true →
        ((presentStep denv2 env2 st w2 h2 s2).2.1.dirtyfbChecked = true
         ∧ (presentStep denv2 env2 st w2 h2 s2).2.1.dirtyfbSupported
             = st.dirtyfbSupported
         ∧ Ev.dirtyProbe ∉ (presentStep denv2 env2 st w2 h2 s2).2.2))
    ∧ (∀ inputs n, st.dirtyfbChecked = true →
        ((presentSeq inputs st n).dirtyfbChecked = true
         ∧ (presentSeq inputs st n).dirtyfbSupported = st.dirtyfbSupported)) := by
  obtain ⟨ps, pre, hc1, hc2, _, _, hp1, hp2, _, _, _, heq⟩ :=
    presentStep_pool_cases denv env st w h stride hflags hstride hcreate
  have hfp : ∀ q : DrmState, Ev.dirtyProbe ∉ (flipStage env q).2.2 := by
    intro q hm
    rcases flipStage_evs env q _ hm with h1 | h1 | h1 <;> simp at h1
  have hfc : ∀ q : DrmState, Ev.dirtyCall ∉ (flipStage env q).2.2 := by
    intro q hm
    rcases flipStage_evs env q _ hm with h1 | h1 | h1 <;> simp at h1
  refine ⟨?_, ?_, ?_, ?_⟩
  · intro hck
    have hpck : ps.dirtyfbChecked = false := by rw [hc1, hck]
    have hdu := dirtyStage_unchecked env ps hpck
    rw [heq, hdu]
    refine ⟨?_, ?_, ?_⟩
    · simp only [List.count_append]
      rw [List.count_eq_zero.mpr hp1, List.count_eq_zero.mpr (hfp _)]
      simp
    · rcases flipStage_state_cases env
        ({ ps with dirtyfbChecked := true, dirtyfbSupported := env.dirtyfbOk }) with
        hs | hs | hs | hs <;> simp [hs]
    · rcases flipStage_state_cases env
        ({ ps with dirtyfbChecked := true, dirtyfbSupported := env.dirtyfbOk }) with
        hs | hs | hs | hs <;> simp [hs]
  · intro hck
    have hpck : ps.dirtyfbChecked = true := by rw [hc1, hck]
    refine ⟨?_, ?_, ?_⟩
    · rw [heq]
      have hdp : Ev.dirtyProbe ∉ (dirtyStage env ps).2 :=
        (dirtyFlip_preserved env ps hpck).2.2.1
      simp only [List.count_append]
      rw [List.count_eq_zero.mpr hp1, List.count_eq_zero.mpr hdp,
          List.count_eq_zero.mpr (hfp _)]
    · intro hsup
      have hpsup : ps.dirtyfbSupported = false := by rw [hc2, hsup]
      rw [heq, dirtyStage_checked_unsup env ps hpck hpsup]
      intro hm
      simp only [List.append_nil, List.mem_append] at hm
      rcases hm with hm | hm
      · exact hp2 hm
      · exact hfc _ hm
    · intro hsup
      have hpsup : ps.dirtyfbSupported = true := by rw [hc2, hsup]
      rw [heq, dirtyStage_checked_sup env ps hpck hpsup]
      simp only [List.count_append]
      rw [List.count_eq_zero.mpr hp2, List.count_eq_zero.mpr (hfc _)]
      simp
  · intro denv2 env2 w2 h2 s2 hck
    exact presentStep_dirty_preserved denv2 env2 st w2 h2 s2 hck
  · intro inputs n hck
    induction n with
    | zero => exact ⟨hck, rfl⟩
    | succ m ih =>
      obtain ⟨i1, i2⟩ := ih
      obtain ⟨q1, q2, _⟩ :=
        presentStep_dirty_preserved (inputs m).1 (inputs m).2.1 (presentSeq inputs st m)
          (inputs m).2.2.1 (inputs m).2.2.2.1 (inputs m).2.2.2.2 i1
      exact ⟨q1, q2.trans i2⟩

/-! ### Concrete fixtures for witnesses and counterexamples -/

/-- Debug environment with every switch off (the default). -/
def stdDebug : DebugEnv :=
  { testPattern := false, forceMsync := false, disablePlane := false,
    useOverlay := false, noVblankSync := false }

/-- Kernel environment in which every call succeeds. -/
def stdEnv : Env :=
  { createOk := true, dirtyfbOk := true, setCrtcOk := true,
    flip1 := FlipRes.ok, flip2 := FlipRes.ok }

/-- A session state as produced by a successful `drm_display_init` on a
1280x720 display, before the first `present`. -/
def baseState : DrmState :=
  { fd := 3, connectorId := 33, crtcId := 41, planeId := 31,
    displayWidth := 1280, displayHeight := 720,
    currentBuffer := 0, frameCount := 0, srcWidth := 0, srcHeight := 0,
    buffersReady := false, modeSet := false,
    dirtyfbChecked := false, dirtyfbSupported := false,
    debugFlagsInitialized := true, debugTestPattern := false,
    debugForceMsync := false, debugDisablePlane := false,
    debugUseOverlay := false, debugNoVblankSync := false,
    setcrtcErrorLogged := false, planeIsOverlay := false,
    vblankErrorLogged := false, fastUpscaleLogged := false }

/-- Steady-state session: pool sized for a 640x480 source, mode set,
dirtyfb probed and supported. -/
def steadyState : DrmState :=
  { baseState with
      srcWidth := 640, srcHeight := 480, buffersReady := true,
      modeSet := true, dirtyfbChecked := true, dirtyfbSupported := true,
      frameCount := 7, currentBuffer := 0 }

/-! ### Claim C4 -/

/-- C4 (amended): the stride check runs in 32-bit arithmetic, so the
rejection is guaranteed when `width * 4` does not overflow `uint32_t`
(`width < 2^30`): then a `present` with `stride < width * 4` returns
false with no kernel calls and the state completely unchanged. -/
theorem c4_stride_reject (denv : DebugEnv) (env : Env) (st : DrmState)
    (w h stride : Nat)
    (hflags : st.debugFlagsInitialized = true)
    (hw : w < 2 ^ 30) (hs32 : stride < 2 ^ 32) (hlt : stride < 4 * w) :
    presentStep denv env st w h stride = (false, st, []) := by
  have h1 : stride % 2 ^ 32 = stride := Nat.mod_eq_of_lt hs32
  have h2 : (4 * w) % 2 ^ 32 = 4 * w := Nat.mod_eq_of_lt (by omega)
  exact presentStep_strideFail denv env st w h stride hflags (by rw [h1, h2]; exact hlt)

/-- C4 counterexample: with `width = 2^30` the computation
`width * 4` wraps to 0 in `uint32_t`, so a call with `stride = 0`
(which is smaller than the mathematical `width * 4 > 0`) is NOT
rejected: it succeeds and mutates the session state. -/
theorem c4_counterexample :
    (0 : Nat) < 2 ^ 30 * 4
    ∧ (presentStep stdDebug stdEnv baseState (2 ^ 30) 1 0).1 = true
    ∧ (presentStep stdDebug stdEnv baseState (2 ^ 30) 1 0).2.1.frameCount
        = baseState.frameCount + 1 := by
  refine ⟨by decide, ?_, ?_⟩ <;> decide

/-- C4 witness at a concrete non-overflowing input. -/
theorem c4_stride_reject_witness :
    (baseState.debugFlagsInitialized = true
     ∧ 100 < 2 ^ 30 ∧ 399 < 2 ^ 32 ∧ 399 < 4 * 100)
    ∧ presentStep stdDebug stdEnv baseState 100 50 399 = (false, baseState, []) :=
  ⟨⟨rfl, by decide, by decide, by decide⟩,
   c4_stride_reject stdDebug stdEnv baseState 100 50 399 rfl (by decide) (by decide)
     (by decide)⟩

/-! ### Claim C8 -/

/-- C8: for every source row and width, the NEON x2 and x4 horizontal
expansion paths — including their scalar tails for widths that are not
multiples of 8 — produce exactly the bytes of the scalar replication
reference. -/
theorem c8_neon_matches_scalar (rgba : Nat → Nat) (stride sy width : Nat) :
    expandRowNeon2 rgba stride sy width = expandRowScalar rgba stride sy width 2
    ∧ expandRowNeon4 rgba stride sy width = expandRowScalar rgba stride sy width 4 :=
  ⟨expandRowNeon2_eq_scalar rgba stride sy width,
   expandRowNeon4_eq_scalar rgba stride sy width⟩

/-! ### Claim C7 -/

/-- When a first-time zero-copy initialization fails, the failure flag
is latched. -/
theorem initGpuDisplay_fail_state (env : GpuEnv) (gs : GpuState)
    (hr : gs.ready = false) (hf : gs.failed = false)
    (hres : (initGpuDisplay env gs).1 = false) :
    (initGpuDisplay env gs).2.1.failed = true := by
  rw [initGpuDisplay] at hres ⊢
  cases h0 : (gpuInitAttempt env 0).1 <;> cases h1 : (gpuInitAttempt env 1).1 <;>
    simp [h0, h1, hf, hr] at hres ⊢

/-- A failed session never re-enters the zero-copy path: each frame is
exactly the CPU fallback and the state is untouched. -/
theorem renderFrame_failed (env : GpuEnv) (gs : GpuState) (h : gs.failed = true) :
    renderFrame env gs = (gs, cpuPathEvs env) := by
  rw [renderFrame, initGpuDisplay]
  simp [h]

theorem renderFrames_failed (envs : Nat → GpuEnv) (gs : GpuState)
    (h : gs.failed = true) : ∀ n, (renderFrames envs gs n).failed = true := by
  intro n
  induction n with
  | zero => exact h
  | succ m ih => rw [renderFrames, renderFrame_failed (envs m) _ ih]; exact ih

/-- C7: if any step of zero-copy initialization fails on its first
attempt, the failure flag is set permanently; the triggering frame
completes via the CPU pipeline (the init attempt trace followed by the
CPU fallback trace), and every subsequent frame, under any
environments, is exactly the CPU fallback with no further zero-copy
initialization attempt. -/
theorem c7_gpu_fallback_sticky (env : GpuEnv) (gs : GpuState)
    (hready : gs.ready = false) (hfailed : gs.failed = false)
    (hfail : (initGpuDisplay env gs).1 = false) :
    (renderFrame env gs).1.failed = true
    ∧ (renderFrame env gs).2 = (initGpuDisplay env gs).2.2 ++ cpuPathEvs env
    ∧ ∀ (envs : Nat → GpuEnv) (n : Nat),
        ((renderFrames envs (renderFrame env gs).1 n).failed = true
         ∧ renderFrame (envs n) (renderFrames envs (renderFrame env gs).1 n)
             = ((renderFrames envs (renderFrame env gs).1 n), cpuPathEvs (envs n))) := by
  have hfs : (renderFrame env gs).1 = (initGpuDisplay env gs).2.1 := by
    rw [renderFrame]
    simp [hfail]
  have hstate := initGpuDisplay_fail_state env gs hready hfailed hfail
  refine ⟨by rw [hfs]; exact hstate, ?_, ?_⟩
  · rw [renderFrame]
    simp [hfail]
  · intro envs n
    have hinv := renderFrames_failed envs (renderFrame env gs).1 (by rw [hfs]; exact hstate) n
    exact ⟨hinv, renderFrame_failed (envs n) _ hinv⟩

/-- Environment whose very first dumb-buffer creation fails but whose
CPU readback succeeds. -/
def failEnv : GpuEnv :=
  { createOk := fun _ => false, addFbAbgrOk := fun _ => true,
    addFbXbgrOk := fun _ => true, primeOk := fun _ => true,
    importOk := fun _ => true, scanoutOk := true, flipOk := true,
    cpuW := 640, cpuH := 480, cpuPixels := 640 * 480 }

/-- Fresh zero-copy state (`interface.cpp:398-401` initial values). -/
def gpuStart : GpuState := { ready := false, failed := false, idx := 0 }

/-- C7 witness: a concrete failing first import attempt. -/
theorem c7_gpu_fallback_sticky_witness :
    (gpuStart.ready = false ∧ gpuStart.failed = false
     ∧ (initGpuDisplay failEnv gpuStart).1 = false)
    ∧ (renderFrame failEnv gpuStart).1.failed = true
    ∧ (renderFrame failEnv gpuStart).2
        = (initGpuDisplay failEnv gpuStart).2.2 ++ cpuPathEvs failEnv
    ∧ (renderFrames (fun _ => failEnv) (renderFrame failEnv gpuStart).1 3).failed = true
    ∧ renderFrame failEnv (renderFrames (fun _ => failEnv) (renderFrame failEnv gpuStart).1 3)
        = ((renderFrames (fun _ => failEnv) (renderFrame failEnv gpuStart).1 3),
           cpuPathEvs failEnv) := by
  have h := c7_gpu_fallback_sticky failEnv gpuStart rfl rfl rfl
  exact ⟨⟨rfl, rfl, rfl⟩, h.1, h.2.1, (h.2.2 (fun _ => failEnv) 3).1,
    (h.2.2 (fun _ => failEnv) 3).2⟩

/-! ### Claim C9 -/

theorem initDebugFlags_srcWidth (denv : DebugEnv) (st : DrmState) :
    (initDebugFlags denv st).srcWidth = st.srcWidth := by
  rw [initDebugFlags]; split <;> rfl

theorem initDebugFlags_srcHeight (denv : DebugEnv) (st : DrmState) :
    (initDebugFlags denv st).srcHeight = st.srcHeight := by
  rw [initDebugFlags]; split <;> rfl

theorem initDebugFlags_currentBuffer (denv : DebugEnv) (st : DrmState) :
    (initDebugFlags denv st).currentBuffer = st.currentBuffer := by
  rw [initDebugFlags]; split <;> rfl

theorem initDebugFlags_setcrtcLog (denv : DebugEnv) (st : DrmState) :
    (initDebugFlags denv st).setcrtcErrorLogged = st.setcrtcErrorLogged := by
  rw [initDebugFlags]; split <;> rfl

theorem initDebugFlags_fastLog (denv : DebugEnv) (st : DrmState) :
    (initDebugFlags denv st).fastUpscaleLogged = st.fastUpscaleLogged := by
  rw [initDebugFlags]; split <;> rfl

theorem initDebugFlags_buffersReady (denv : DebugEnv) (st : DrmState) :
    (initDebugFlags denv st).buffersReady = st.buffersReady := by
  rw [initDebugFlags]; split <;> rfl

theorem initDebugFlags_modeSet (denv : DebugEnv) (st : DrmState) :
    (initDebugFlags denv st).modeSet = st.modeSet := by
  rw [initDebugFlags]; split <;> rfl

/-- Normal form of a fully successful `drm_display_init`. -/
theorem initStep_success (env : InitEnv) (st : DrmState)
    (hopen : env.openOk = true) (hres : env.resOk = true)
    (hconn : env.connFound = true) (hcrtc : env.crtcFound = true)
    (hmb : env.modeBufOk = true) :
    initStep env st
      = (true,
         { initDebugFlags env.debug st with
             fd := env.fdVal
             connectorId := env.connId
             displayWidth := env.dispW
             displayHeight := env.dispH
             crtcId := env.crtcIdVal
             planeId := env.planeIdVal
             planeIsOverlay := env.planeOverlay
             frameCount := 0 }) := by
  rw [initStep]
  simp [hopen, hres, hconn, hcrtc, hmb]

/-- C9 (amended): `cleanup` resets only `buffers_ready` and `mode_set`
(and closes the fd), and a subsequent successful `init` re-derives the
display topology and zeroes the frame counter — but the
capability-probe results (`dirtyfb_checked`/`dirtyfb_supported`), the
cached debug flags, the one-shot log flags, the source-size
bookkeeping and the front/back index all carry over from the previous
session. -/
theorem c9_no_full_rederive (env : InitEnv) (st : DrmState)
    (hopen : env.openOk = true) (hres : env.resOk = true)
    (hconn : env.connFound = true) (hcrtc : env.crtcFound = true)
    (hmb : env.modeBufOk = true) :
    (initStep env (cleanupStep st)).1 = true
    ∧ (initStep env (cleanupStep st)).2.buffersReady = false
    ∧ (initStep env (cleanupStep st)).2.modeSet = false
    ∧ (initStep env (cleanupStep st)).2.frameCount = 0
    ∧ (initStep env (cleanupStep st)).2.fd = env.fdVal
    ∧ (initStep env (cleanupStep st)).2.displayWidth = env.dispW
    ∧ (initStep env (cleanupStep st)).2.displayHeight = env.dispH
    ∧ (initStep env (cleanupStep st)).2.dirtyfbChecked = st.dirtyfbChecked
    ∧ (initStep env (cleanupStep st)).2.dirtyfbSupported = st.dirtyfbSupported
    ∧ (initStep env (cleanupStep st)).2.srcWidth = st.srcWidth
    ∧ (initStep env (cleanupStep st)).2.srcHeight = st.srcHeight
    ∧ (initStep env (cleanupStep st)).2.currentBuffer = st.currentBuffer
    ∧ (initStep env (cleanupStep st)).2.setcrtcErrorLogged = st.setcrtcErrorLogged
    ∧ (initStep env (cleanupStep st)).2.fastUpscaleLogged = st.fastUpscaleLogged
    ∧ (st.debugFlagsInitialized = true →
        (initStep env (cleanupStep st)).2.debugFlagsInitialized = true
        ∧ (initStep env (cleanupStep st)).2.debugTestPattern = st.debugTestPattern
        ∧ (initStep env (cleanupStep st)).2.debugNoVblankSync = st.debugNoVblankSync) := by
  rw [initStep_success env (cleanupStep st) hopen hres hconn hcrtc hmb]
  refine ⟨rfl, ?_, ?_, rfl, rfl, rfl, rfl, ?_, ?_, ?_, ?_, ?_, ?_, ?_, ?_⟩
  · simp [initDebugFlags_buffersReady, cleanupStep]
  · simp [initDebugFlags_modeSet, cleanupStep]
  · simp [initDebugFlags_checked, cleanupStep]
  · simp [initDebugFlags_supported, cleanupStep]
  · simp [initDebugFlags_srcWidth, cleanupStep]
  · simp [initDebugFlags_srcHeight, cleanupStep]
  · simp [initDebugFlags_currentBuffer, cleanupStep]
  · simp [initDebugFlags_setcrtcLog, cleanupStep]
  · simp [initDebugFlags_fastLog, cleanupStep]
  · intro hdf
    have hcl : (cleanupStep st).debugFlagsInitialized = true := by
      simpa [cleanupStep] using hdf
    rw [initDebugFlags_id env.debug (cleanupStep st) hcl]
    exact ⟨by simpa [cleanupStep] using hdf, by simp [cleanupStep], by simp [cleanupStep]⟩

/-- A session that already ran its dirtyfb probe (result: unsupported)
and presented some frames. -/
def sessionA : DrmState :=
  { baseState with
      dirtyfbChecked := true, dirtyfbSupported := false,
      srcWidth := 640, srcHeight := 480, currentBuffer := 1,
      setcrtcErrorLogged := true, fastUpscaleLogged := true }

/-- Discovery environment of a successful `drm_display_init`. -/
def stdInitEnv : InitEnv :=
  { debug := stdDebug, openOk := true, fdVal := 3, resOk := true,
    connFound := true, connId := 33, dispW := 1280, dispH := 720,
    crtcFound := true, crtcIdVal := 41, planeIdVal := 31,
    planeOverlay := false, modeBufOk := true, setCrtcOk := true }

/-- C9 counterexample: two sessions that differ only in state the spec
says is re-derived (the dirtyfb probe result, bookkeeping and log
flags) still differ after `cleanup()` followed by a successful
`init()` from the same hardware environment — in particular the probe
flag carries over, so the claim that nothing persists across sessions
is false. -/
theorem c9_counterexample :
    (initStep stdInitEnv (cleanupStep sessionA)).2.dirtyfbChecked = true
    ∧ (initStep stdInitEnv (cleanupStep baseState)).2.dirtyfbChecked = false
    ∧ (initStep stdInitEnv (cleanupStep sessionA)).2
        ≠ (initStep stdInitEnv (cleanupStep baseState)).2 := by
  exact ⟨by decide, by decide, by decide⟩

/-- C9 witness for the amended statement. -/
theorem c9_no_full_rederive_witness :
    (stdInitEnv.openOk = true ∧ stdInitEnv.resOk = true
     ∧ stdInitEnv.connFound = true ∧ stdInitEnv.crtcFound = true
     ∧ stdInitEnv.modeBufOk = true)
    ∧ (initStep stdInitEnv (cleanupStep sessionA)).1 = true
    ∧ (initStep stdInitEnv (cleanupStep sessionA)).2.buffersReady = false
    ∧ (initStep stdInitEnv (cleanupStep sessionA)).2.modeSet = false
    ∧ (initStep stdInitEnv (cleanupStep sessionA)).2.frameCount = 0
    ∧ (initStep stdInitEnv (cleanupStep sessionA)).2.fd = stdInitEnv.fdVal
    ∧ (initStep stdInitEnv (cleanupStep sessionA)).2.displayWidth = stdInitEnv.dispW
    ∧ (initStep stdInitEnv (cleanupStep sessionA)).2.displayHeight = stdInitEnv.dispH
    ∧ (initStep stdInitEnv (cleanupStep sessionA)).2.dirtyfbChecked
        = sessionA.dirtyfbChecked
    ∧ (initStep stdInitEnv (cleanupStep sessionA)).2.dirtyfbSupported
        = sessionA.dirtyfbSupported
    ∧ (initStep stdInitEnv (cleanupStep sessionA)).2.srcWidth = sessionA.srcWidth
    ∧ (initStep stdInitEnv (cleanupStep sessionA)).2.srcHeight = sessionA.srcHeight
    ∧ (initStep stdInitEnv (cleanupStep sessionA)).2.currentBuffer
        = sessionA.currentBuffer
    ∧ (initStep stdInitEnv (cleanupStep sessionA)).2.setcrtcErrorLogged
        = sessionA.setcrtcErrorLogged
    ∧ (initStep stdInitEnv (cleanupStep sessionA)).2.fastUpscaleLogged
        = sessionA.fastUpscaleLogged
    ∧ (sessionA.debugFlagsInitialized = true →
        (initStep stdInitEnv (cleanupStep sessionA)).2.debugFlagsInitialized = true
        ∧ (initStep stdInitEnv (cleanupStep sessionA)).2.debugTestPattern
            = sessionA.debugTestPattern
        ∧ (initStep stdInitEnv (cleanupStep sessionA)).2.debugNoVblankSync
            = sessionA.debugNoVblankSync) :=
  ⟨⟨rfl, rfl, rfl, rfl, rfl⟩,
   c9_no_full_rederive stdInitEnv sessionA rfl rfl rfl rfl rfl⟩

/-! ### Claim C10 -/

/-- C10: a `present` with `width = 0, height = 0` passes the stride
check for every stride (the required minimum is `0`), still triggers
pool reallocation and the frame write, and the blit takes the generic
nearest-neighbor path in which every destination pixel reads source
bytes 0..2 (`src_y = src_x = 0`), so the call is only safe when the
source buffer is non-empty despite its declared zero size. -/
theorem c10_zero_dims_safety (rgba : Nat → Nat) (denv : DebugEnv) (env : Env)
    (st : DrmState) (stride x y : Nat)
    (hflags : st.debugFlagsInitialized = true)
    (hbr : st.buffersReady = false)
    (hcreate : env.createOk = true)
    (hx : x < st.displayWidth) (hy : y < st.displayHeight) :
    (∃ rest, (presentStep denv env st 0 0 stride).2.2
       = [Ev.destroyBuf 0, Ev.destroyBuf 1,
          Ev.allocBuf 0 st.displayWidth st.displayHeight,
          Ev.allocBuf 1 st.displayWidth st.displayHeight,
          Ev.writeFrame] ++ rest)
    ∧ blitRows rgba stride 0 0 st.displayWidth st.displayHeight
        = genericRows rgba stride 0 0 st.displayWidth st.displayHeight
    ∧ dstByte (blitRows rgba stride 0 0 st.displayWidth st.displayHeight) y (4 * x)
        = rgba 2 % 256
    ∧ dstByte (blitRows rgba stride 0 0 st.displayWidth st.displayHeight) y (4 * x + 1)
        = rgba 1 % 256
    ∧ dstByte (blitRows rgba stride 0 0 st.displayWidth st.displayHeight) y (4 * x + 2)
        = rgba 0 % 256
    ∧ dstByte (blitRows rgba stride 0 0 st.displayWidth st.displayHeight) y (4 * x + 3)
        = 0 := by
  have hstride : ¬ stride % 2 ^ 32 < (4 * 0) % 2 ^ 32 := by simp
  have hre : (!st.buffersReady || st.srcWidth != 0 || st.srcHeight != 0) = true := by
    simp [hbr]
  have hgen : blitRows rgba stride 0 0 st.displayWidth st.displayHeight
      = genericRows rgba stride 0 0 st.displayWidth st.displayHeight := by
    rw [blitRows, if_neg (by simp)]
  have hpix : ∀ k, k < 4 →
      dstByte (blitRows rgba stride 0 0 st.displayWidth st.displayHeight) y (4 * x + k)
        = (srcPixBytes rgba stride 0 0).getD k 0 := by
    intro k hk
    rw [hgen, dstByte, genericRows_getD rgba stride 0 0 _ _ y hy,
        genericRow_pix rgba stride 0 0 _ _ y x k hx hk]
    simp
  refine ⟨?_, hgen, ?_, ?_, ?_, ?_⟩
  · rw [presentStep_realloc denv env st 0 0 stride hflags hstride hre hcreate]
    exact ⟨(if st.debugForceMsync then [Ev.msync] else [])
            ++ (dirtyStage env (reallocState st 0 0)).2
            ++ (flipStage env (dirtyStage env (reallocState st 0 0)).1).2.2, by simp⟩
  · have := hpix 0 (by omega); simpa [srcPixBytes, srcB] using this
  · have := hpix 1 (by omega); simpa [srcPixBytes, srcB] using this
  · have := hpix 2 (by omega); simpa [srcPixBytes, srcB] using this
  · have := hpix 3 (by omega); simpa [srcPixBytes, srcB] using this

/-! ### Witnesses at concrete inputs -/

/-- Concrete source byte memory for witnesses. -/
def wRgba : Nat → Nat := fun i => i

/-- C1 witness: 2x1 source, exact-ratio and x2/x3 blits, pixel (1,0),
block position (1,2). -/
theorem c1_blit_geometry_witness :
    ((0 : Nat) < 2 ∧ (0 : Nat) < 1 ∧ 1 < 2 ∧ 0 < 1 ∧ 1 < 2 ∧ 2 < 3)
    ∧ ((dstByte (blitRows wRgba 8 2 1 2 1) 0 (4 * 1) = srcB wRgba 8 0 1 2
        ∧ dstByte (blitRows wRgba 8 2 1 2 1) 0 (4 * 1 + 1) = srcB wRgba 8 0 1 1
        ∧ dstByte (blitRows wRgba 8 2 1 2 1) 0 (4 * 1 + 2) = srcB wRgba 8 0 1 0
        ∧ dstByte (blitRows wRgba 8 2 1 2 1) 0 (4 * 1 + 3) = 0)
       ∧ (dstByte (blitRows wRgba 8 2 1 (2 * 2) (3 * 1)) (3 * 0 + 2) (4 * (2 * 1 + 1))
            = srcB wRgba 8 0 1 2
          ∧ dstByte (blitRows wRgba 8 2 1 (2 * 2) (3 * 1)) (3 * 0 + 2) (4 * (2 * 1 + 1) + 1)
            = srcB wRgba 8 0 1 1
          ∧ dstByte (blitRows wRgba 8 2 1 (2 * 2) (3 * 1)) (3 * 0 + 2) (4 * (2 * 1 + 1) + 2)
            = srcB wRgba 8 0 1 0
          ∧ dstByte (blitRows wRgba 8 2 1 (2 * 2) (3 * 1)) (3 * 0 + 2) (4 * (2 * 1 + 1) + 3)
            = 0)) :=
  ⟨by decide,
   c1_blit_geometry wRgba 8 2 1 1 0 1 2 (by decide) (by decide) (by decide) (by decide)
     (by decide) (by decide)⟩

/-- C2 witness: first present on an unsized pool at 640x480. -/
theorem c2_resize_correctness_witness :
    (baseState.debugFlagsInitialized = true
     ∧ ¬ 2560 % 2 ^ 32 < (4 * 640) % 2 ^ 32
     ∧ stdEnv.createOk = true)
    ∧ (((baseState.buffersReady = false ∨ baseState.srcWidth ≠ 640
          ∨ baseState.srcHeight ≠ 480) →
         ∃ rest, (presentStep stdDebug stdEnv baseState 640 480 2560).2.2
           = [Ev.destroyBuf 0, Ev.destroyBuf 1,
              Ev.allocBuf 0 baseState.displayWidth baseState.displayHeight,
              Ev.allocBuf 1 baseState.displayWidth baseState.displayHeight,
              Ev.writeFrame] ++ rest)
       ∧ (baseState.buffersReady = true → baseState.srcWidth = 640 →
           baseState.srcHeight = 480 →
           ∀ e ∈ (presentStep stdDebug stdEnv baseState 640 480 2560).2.2,
             (∀ i, e ≠ Ev.destroyBuf i) ∧ (∀ i a b, e ≠ Ev.allocBuf i a b))) :=
  ⟨⟨rfl, by decide, rfl⟩,
   c2_resize_correctness stdDebug stdEnv baseState 640 480 2560 rfl (by decide) rfl⟩

/-- Environment whose first flip is rejected busy and whose retry also
fails. -/
def busyEnv : Env :=
  { createOk := true, dirtyfbOk := true, setCrtcOk := true,
    flip1 := FlipRes.busy, flip2 := FlipRes.err }

/-- C3 witness: part 1 exercised at the genuine first present after
init (mode not set, pool unsized), parts 2-4 at a steady-state present
with a busy flip and failing retry, followed by a succeeding present. -/
theorem c3_flip_protocol_witness :
    (baseState.debugFlagsInitialized = true ∧ baseState.modeSet = false
     ∧ baseState.buffersReady = false
     ∧ steadyState.debugFlagsInitialized = true ∧ steadyState.modeSet = true
     ∧ ¬ 2560 % 2 ^ 32 < (4 * 640) % 2 ^ 32
     ∧ stdEnv.createOk = true ∧ busyEnv.createOk = true
     ∧ baseState.debugNoVblankSync = false
     ∧ steadyState.debugNoVblankSync = false)
    ∧ (Ev.setCrtc ∈ (presentStep stdDebug stdEnv baseState 640 480 2560).2.2
       ∧ Ev.pageFlip ∉ (presentStep stdDebug stdEnv baseState 640 480 2560).2.2)
    ∧ (Ev.pageFlip ∈ (presentStep stdDebug busyEnv steadyState 640 480 2560).2.2
       ∧ Ev.setCrtc ∉ (presentStep stdDebug busyEnv steadyState 640 480 2560).2.2)
    ∧ ((presentStep stdDebug busyEnv steadyState 640 480 2560).2.2.count Ev.pageFlip = 2
       ∧ (presentStep stdDebug busyEnv steadyState 640 480 2560).2.2.count Ev.vblankWait
           = 1)
    ∧ ((presentStep stdDebug busyEnv steadyState 640 480 2560).1 = false
       ∧ (presentStep stdDebug busyEnv steadyState 640 480 2560).2.1.currentBuffer
           = steadyState.currentBuffer
       ∧ (presentStep stdDebug busyEnv steadyState 640 480 2560).2.1.frameCount
           = steadyState.frameCount
       ∧ (stdEnv.flip1 = FlipRes.ok →
           (presentStep stdDebug stdEnv
             (presentStep stdDebug busyEnv steadyState 640 480 2560).2.1
             640 480 2560).1 = true)) :=
  ⟨⟨rfl, rfl, rfl, rfl, rfl, by decide, rfl, rfl, rfl, rfl⟩,
   (c3_flip_protocol stdDebug stdEnv stdEnv baseState 640 480 2560 rfl (by decide)
     rfl rfl).1 rfl,
   (c3_flip_protocol stdDebug busyEnv stdEnv steadyState 640 480 2560 rfl (by decide)
     rfl rfl).2.1 rfl,
   (c3_flip_protocol stdDebug busyEnv stdEnv steadyState 640 480 2560 rfl (by decide)
     rfl rfl).2.2.1 rfl rfl,
   (c3_flip_protocol stdDebug busyEnv stdEnv steadyState 640 480 2560 rfl (by decide)
     rfl rfl).2.2.2 rfl rfl rfl rfl rfl (by decide)⟩

/-- C5 witness: five successful steady-state presents. -/
theorem c5_double_buffer_alternation_witness :
    (steadyState.debugFlagsInitialized = true
     ∧ ¬ 2560 % 2 ^ 32 < (4 * 640) % 2 ^ 32
     ∧ steadyState.buffersReady = true ∧ steadyState.srcWidth = 640
     ∧ steadyState.srcHeight = 480 ∧ steadyState.modeSet = true
     ∧ steadyState.currentBuffer = 0 ∧ stdEnv.flip1 = FlipRes.ok)
    ∧ ((∀ n, (presentStep stdDebug stdEnv
          (presentIter stdDebug stdEnv 640 480 2560 steadyState n) 640 480 2560).1 = true)
       ∧ (presentIter stdDebug stdEnv 640 480 2560 steadyState 5).currentBuffer = 5 % 2
       ∧ (presentIter stdDebug stdEnv 640 480 2560 steadyState 5).frameCount
           = steadyState.frameCount + 5
       ∧ (∀ n,
           (presentIter stdDebug stdEnv 640 480 2560 steadyState (n + 1)).currentBuffer
             = (presentIter stdDebug stdEnv 640 480 2560 steadyState n).currentBuffer ^^^ 1
           ∧ (presentIter stdDebug stdEnv 640 480 2560 steadyState (n + 1)).frameCount
             = (presentIter stdDebug stdEnv 640 480 2560 steadyState n).frameCount + 1)) :=
  ⟨⟨rfl, by decide, rfl, rfl, rfl, rfl, rfl, rfl⟩,
   c5_double_buffer_alternation stdDebug stdEnv steadyState 640 480 2560 5 rfl
     (by decide) rfl rfl rfl rfl rfl rfl⟩

/-- C6 witness: an unprobed session probes once and latches. -/
theorem c6_dirtyfb_sticky_witness :
    (baseState.debugFlagsInitialized = true
     ∧ ¬ 2560 % 2 ^ 32 < (4 * 640) % 2 ^ 32
     ∧ stdEnv.createOk = true)
    ∧ ((baseState.dirtyfbChecked = false →
         ((presentStep stdDebug stdEnv baseState 640 480 2560).2.2.count Ev.dirtyProbe = 1
          ∧ (presentStep stdDebug stdEnv baseState 640 480 2560).2.1.dirtyfbChecked = true
          ∧ (presentStep stdDebug stdEnv baseState 640 480 2560).2.1.dirtyfbSupported
              = stdEnv.dirtyfbOk))
       ∧ (baseState.dirtyfbChecked = true →
         ((presentStep stdDebug stdEnv baseState 640 480 2560).2.2.count Ev.dirtyProbe = 0
          ∧ (baseState.dirtyfbSupported = false →
              Ev.dirtyCall ∉ (presentStep stdDebug stdEnv baseState 640 480 2560).2.2)
          ∧ (baseState.dirtyfbSupported = true →
              (presentStep stdDebug stdEnv baseState 640 480 2560).2.2.count Ev.dirtyCall
                = 1)))
       ∧ (∀ denv2 env2 w2 h2 s2, baseState.dirtyfbChecked = true →
           ((presentStep denv2 env2 baseState w2 h2 s2).2.1.dirtyfbChecked = true
            ∧ (presentStep denv2 env2 baseState w2 h2 s2).2.1.dirtyfbSupported
                = baseState.dirtyfbSupported
            ∧ Ev.dirtyProbe ∉ (presentStep denv2 env2 baseState w2 h2 s2).2.2))
       ∧ (∀ inputs n, baseState.dirtyfbChecked = true →
           ((presentSeq inputs baseState n).dirtyfbChecked = true
            ∧ (presentSeq inputs baseState n).dirtyfbSupported
                = baseState.dirtyfbSupported))) :=
  ⟨⟨rfl, by decide, rfl⟩,
   c6_dirtyfb_sticky stdDebug stdEnv baseState 640 480 2560 rfl (by decide) rfl⟩

/-- C10 witness: zero-dimension present with stride 0 on the base
session. -/
theorem c10_zero_dims_safety_witness :
    (baseState.debugFlagsInitialized = true ∧ baseState.buffersReady = false
     ∧ stdEnv.createOk = true
     ∧ 1 < baseState.displayWidth ∧ 1 < baseState.displayHeight)
    ∧ ((∃ rest, (presentStep stdDebug stdEnv baseState 0 0 0).2.2
         = [Ev.destroyBuf 0, Ev.destroyBuf 1,
            Ev.allocBuf 0 baseState.displayWidth baseState.displayHeight,
            Ev.allocBuf 1 baseState.displayWidth baseState.displayHeight,
            Ev.writeFrame] ++ rest)
       ∧ blitRows wRgba 0 0 0 baseState.displayWidth baseState.displayHeight
           = genericRows wRgba 0 0 0 baseState.displayWidth baseState.displayHeight
       ∧ dstByte (blitRows wRgba 0 0 0 baseState.displayWidth baseState.displayHeight)
           1 (4 * 1) = wRgba 2 % 256
       ∧ dstByte (blitRows wRgba 0 0 0 baseState.displayWidth baseState.displayHeight)
           1 (4 * 1 + 1) = wRgba 1 % 256
       ∧ dstByte (blitRows wRgba 0 0 0 baseState.displayWidth baseState.displayHeight)
           1 (4 * 1 + 2) = wRgba 0 % 256
       ∧ dstByte (blitRows wRgba 0 0 0 baseState.displayWidth baseState.displayHeight)
           1 (4 * 1 + 3) = 0) :=
  ⟨⟨rfl, rfl, rfl, by decide, by decide⟩,
   c10_zero_dims_safety wRgba stdDebug stdEnv baseState 0 1 1 rfl rfl rfl (by decide)
     (by decide)⟩
